import Mathlib

/-!
Verification development for the DoenetML reactive core
(repository sources: doenet-core/src/lib.rs, doenet-core/src/component/point.rs,
doenet-core/src/component/p.rs).

The Rust sources are shallowly embedded: pure Rust functions become Lean
functions over the same data shapes (HashMaps become association lists,
iteration order of a HashMap is fixed to list order), interior mutability of
the two run-time stores (component_states, essential_data) becomes explicit
state passing of a Store value, and Rust panics (unwrap, expect, assert,
panic, todo) become the error side of an Except monad.  Recursive run-time
procedures whose termination the Rust code does not itself guarantee are given
an explicit fuel parameter; running out of fuel is a distinguished error value
that models non-termination of the original code.

Parts of the repository that the claims depend on but that are not among the
given source files (state.rs, state_variables.rs, parse_json.rs,
base_definitions.rs, component/mod.rs) are modelled from the specification;
each such definition carries a doc comment starting with
"Modelled from the spec:".  Component definitions themselves (the pluggable
catalogue) are plain data of the model, as the specification describes them as
an open extension point.
-/

deriving instance DecidableEq for Except

namespace Doenet

/-! ## Basic names and instances (lib.rs lines 1311-1327) -/

abbrev ComponentName := String
abbrev StateVarName := String
abbrev InstructionName := String
abbrev AttributeName := String
abbrev BatchName := String

/-- An instance selects the repetition of a component inside nested maps. -/
abbrev Inst := List Nat

abbrev InstanceGroup := List Nat

abbrev RelativeInstance := List Nat

/-! ## Association list helpers (model of Rust HashMap) -/

def lookupD {α β : Type} [DecidableEq α] : List (α × β) → α → Option β
  | [], _ => none
  | (k, v) :: t, a => if k = a then some v else lookupD t a

def containsD {α β : Type} [DecidableEq α] (l : List (α × β)) (a : α) : Bool :=
  (lookupD l a).isSome

/-- Replace the value at a key, or append the binding if the key is absent. -/
def insertD {α β : Type} [DecidableEq α] : List (α × β) → α → β → List (α × β)
  | [], a, b => [(a, b)]
  | (k, v) :: t, a, b => if k = a then (k, b) :: t else (k, v) :: insertD t a b

/-- Update the value at a key through a function, starting from a default
when the key is absent (model of the Rust entry().or_insert() pattern). -/
def updateD {α β : Type} [DecidableEq α] (l : List (α × β)) (a : α) (d : β)
    (f : β → β) : List (α × β) :=
  match lookupD l a with
  | some b => insertD l a (f b)
  | none => insertD l a (f d)

/-! ## State variable references (state_variables.rs, modelled) -/

/-- Modelled from the spec: state_variables.rs is not among the given sources.
A single state variable is referred to either plainly, as an array element
(indices start at 1), or as the size pseudo-index of an array.  Constructor
argument order (name first, then index) follows every use in lib.rs and
point.rs. -/
inductive StateRef
  | Basic (name : StateVarName)
  | ArrayElement (name : StateVarName) (idx : Nat)
  | SizeOf (name : StateVarName)
deriving DecidableEq, Repr

/-- Modelled from the spec: the index part of a StateRef. -/
inductive StateIndex
  | Basic
  | Element (idx : Nat)
  | SizeOf
deriving DecidableEq, Repr

/-- A slice is either one single state variable or a whole array. -/
inductive StateVarSlice
  | Single (ref : StateRef)
  | Array (name : StateVarName)
deriving DecidableEq, Repr

def StateRef.name : StateRef → StateVarName
  | .Basic n => n
  | .ArrayElement n _ => n
  | .SizeOf n => n

def StateRef.index : StateRef → StateIndex
  | .Basic _ => .Basic
  | .ArrayElement _ i => .Element i
  | .SizeOf _ => .SizeOf

def StateRef.from_name_and_index (name : StateVarName) : StateIndex → StateRef
  | .Basic => .Basic name
  | .Element i => .ArrayElement name i
  | .SizeOf => .SizeOf name

def StateVarSlice.name : StateVarSlice → StateVarName
  | .Single r => r.name
  | .Array n => n

/-- Modelled from the spec: specialize an Array slice to a written index
(used by the invalidation pass, lib.rs line 2150). -/
def StateVarSlice.specify_index : StateVarSlice → StateIndex → Option StateRef
  | .Array n, .Element i => some (.ArrayElement n i)
  | .Array n, .SizeOf => some (.SizeOf n)
  | .Array _, .Basic => none
  | .Single _, _ => none

/-! ## Values (state_variables.rs, modelled) -/

/-- Modelled from the spec: the closed value union of the engine.  Rust f64
numbers are modelled as integers (every value that any claim exercises is
integral); a math expression over constant strings is modelled by the integer
it evaluates to. -/
inductive StateVarValue
  | str (s : String)
  | number (x : Int)
  | integer (i : Int)
  | boolean (b : Bool)
  | mathExpr (x : Int)
deriving DecidableEq, Repr

/-- Modelled from the spec: conversion of a value to a usize
(Rust try_into / convert_float_to_usize, only defined on non-negative
integral values). -/
def StateVarValue.toSize : StateVarValue → Option Nat
  | .integer i => if i < 0 then none else some i.toNat
  | .number x => if x < 0 then none else some x.toNat
  | _ => none

/-- Modelled from the spec: type tag used for DependencySource::Essential. -/
def StateVarValue.type_as_str : StateVarValue → String
  | .str _ => "string"
  | .number _ => "number"
  | .integer _ => "integer"
  | .boolean _ => "boolean"
  | .mathExpr _ => "mathExpr"

/-! ## Component references and groups (component/mod.rs shapes used by lib.rs) -/

inductive ComponentRef
  | Basic (name : ComponentName)
  | BatchMember (name : ComponentName) (batch : Option BatchName) (idx : Nat)
  | CollectionMember (name : ComponentName) (idx : Nat)
deriving DecidableEq, Repr

def ComponentRef.name : ComponentRef → ComponentName
  | .Basic n => n
  | .BatchMember n _ _ => n
  | .CollectionMember n _ => n

inductive ComponentGroup
  | Single (r : ComponentRef)
  | Batch (name : ComponentName)
  | Collection (name : ComponentName)
deriving DecidableEq, Repr

def ComponentGroup.name : ComponentGroup → ComponentName
  | .Single r => r.name
  | .Batch n => n
  | .Collection n => n

/-! ## Key and slice wrapper structures (lib.rs lines 1330-1391) -/

structure ComponentNodeInstance where
  comp : ComponentName
  inst : Inst
deriving DecidableEq, Repr

structure ComponentNodeRelative where
  comp : ComponentName
  rel : RelativeInstance
deriving DecidableEq, Repr

structure ComponentRefInstance where
  ref : ComponentRef
  inst : Inst
deriving DecidableEq, Repr

structure ComponentRefRelative where
  ref : ComponentRef
  rel : RelativeInstance
deriving DecidableEq, Repr

structure ComponentGroupInstance where
  group : ComponentGroup
  inst : Inst
deriving DecidableEq, Repr

structure ComponentGroupRelative where
  group : ComponentGroup
  rel : RelativeInstance
deriving DecidableEq, Repr

structure ComponentState where
  node : ComponentNodeInstance
  ref : StateRef
deriving DecidableEq, Repr

structure ComponentStateSlice where
  node : ComponentNodeInstance
  slice : StateVarSlice
deriving DecidableEq, Repr

structure ComponentRefSlice where
  refInst : ComponentRefInstance
  slice : StateVarSlice
deriving DecidableEq, Repr

structure ComponentRefArrayRelative where
  refRel : ComponentRefRelative
  arrayName : StateVarName
deriving DecidableEq, Repr

structure ComponentRefStateRelative where
  refRel : ComponentRefRelative
  ref : StateRef
deriving DecidableEq, Repr

structure ComponentRefSliceRelative where
  refRel : ComponentRefRelative
  slice : StateVarSlice
deriving DecidableEq, Repr

structure ComponentGroupSliceRelative where
  groupRel : ComponentGroupRelative
  slice : StateVarSlice
deriving DecidableEq, Repr

structure ComponentStateAllInstances where
  comp : ComponentName
  ref : StateRef
deriving DecidableEq, Repr

structure ComponentStateSliceAllInstances where
  comp : ComponentName
  slice : StateVarSlice
deriving DecidableEq, Repr

structure ComponentInstancesSlice where
  comp : ComponentName
  instGroup : InstanceGroup
  slice : StateVarSlice
deriving DecidableEq, Repr

/-- Essential data can be generated by a state variable requesting it, by a
string child, or by a string in an attribute (lib.rs lines 1227-1232). -/
inductive EssentialDataOrigin
  | StateVar (name : StateVarName)
  | ComponentChild (k : Nat)
deriving DecidableEq, Repr

structure EssentialState where
  node : ComponentNodeInstance
  origin : EssentialDataOrigin
  index : StateIndex
deriving DecidableEq, Repr

/-- The key of the static dependency graph (lib.rs lines 78-85). -/
structure DependencyKey where
  slice : ComponentStateSliceAllInstances
  instruction : InstructionName
deriving DecidableEq, Repr

def DependencyKey.component_name (k : DependencyKey) : ComponentName :=
  k.slice.comp

/-- Modelled from the spec: child-acceptance profiles (component/mod.rs). -/
inductive ComponentProfile
  | Text
  | Number
  | Boolean
deriving DecidableEq, Repr

/-- A collection of edges on the dependency tree (lib.rs lines 90-121). -/
inductive Dependency
  | Essential (component_name : ComponentName) (origin : EssentialDataOrigin)
  | StateVar (component_states : ComponentGroupSliceRelative)
  | UndeterminedChildren (component_name : ComponentName)
      (desired_profiles : List ComponentProfile)
  | MapSources (map_sources : ComponentName) (state_var_slice : StateVarSlice)
  | StateVarArrayCorrespondingElement (array_state_var : ComponentRefArrayRelative)
  | StateVarArrayDynamicElement (array_state_var : ComponentRefArrayRelative)
      (index_state_var : StateRef)
deriving DecidableEq, Repr

/-- Defines which components form the members of a collection
(lib.rs lines 123-144). -/
inductive CollectionMembers
  | Component (name : ComponentName)
  | Batch (name : ComponentName)
  | ComponentOnCondition (component_name : ComponentName) (condition : StateRef)
  | InstanceBySources (template : ComponentName) (sources : ComponentName)
deriving DecidableEq, Repr

/-- Intermediate shape used while flattening collections (create_group_dependencies). -/
inductive CollectionMembersOrCollection
  | Collection (name : ComponentName)
  | Members (m : CollectionMembers)
deriving DecidableEq, Repr

/-- Copy-source links of a component (component/mod.rs shape used by lib.rs).
The math expression of a DynamicElement is modelled by its constant value. -/
inductive CopySource
  | Component (r : ComponentRefRelative)
  | StateVar (r : ComponentRefStateRelative)
  | DynamicElement (comp : ComponentName) (sv : StateVarName)
      (expr : Int) (variable_components : List ComponentName)
  | MapSources (sources : ComponentName)
deriving DecidableEq, Repr

inductive ObjectName
  | Component (name : ComponentName)
  | String (s : String)
deriving DecidableEq, Repr

inductive ComponentChild
  | Component (name : ComponentName)
  | String (s : String)
deriving DecidableEq, Repr

end Doenet

namespace Doenet

/-! ## Run-time state of a state variable (state.rs, modelled) -/

/-- The two-state cache status of a single state variable. -/
inductive StateV
  | Stale
  | Resolved (v : StateVarValue)
deriving DecidableEq, Repr

/-- Modelled from the spec: per-instance state of an array state variable.
The element list is resized when the size is set; element indices are 1-based
outward. -/
structure ArrayInstState where
  size : StateV
  elements : List StateV
deriving DecidableEq, Repr

/-- Modelled from the spec: state.rs is not among the given sources.
StateForStateVar holds, per map instance, the Stale/Resolved state of a single
state variable, or of the size and every element of an array state variable.
Instances that have no entry are fully Stale with no existing elements. -/
inductive StateForStateVar
  | single (entries : List (Inst × StateV))
  | array (entries : List (Inst × ArrayInstState))
deriving DecidableEq, Repr

/-- Modelled from the spec: fresh all-Stale state for one state variable
(StateForStateVar::new). -/
def StateForStateVar.new (is_array : Bool) : StateForStateVar :=
  if is_array then .array [] else .single []

/-- Modelled from the spec: read of one single state (state.rs
get_single_state).  Returns none when the referenced element does not exist
at this instance; an index of the wrong shape is a fatal error. -/
def StateForStateVar.get_single_state (s : StateForStateVar) (index : StateIndex)
    (inst : Inst) : Except String (Option StateV) :=
  match s, index with
  | .single entries, .Basic => .ok (some ((lookupD entries inst).getD .Stale))
  | .single _, _ => .error "accessing a single state var with an array index"
  | .array entries, .SizeOf =>
      .ok (some ((lookupD entries inst).getD ⟨.Stale, []⟩).size)
  | .array entries, .Element i =>
      let a := (lookupD entries inst).getD ⟨.Stale, []⟩
      if i = 0 then .ok none
      else .ok (a.elements.get? (i - 1))
  | .array _, .Basic => .error "accessing an array state var with a basic index"

/-- Modelled from the spec: write of one single state (state.rs
set_single_state).  Setting the size of an array resizes the element list,
filling new slots with Stale. -/
def StateForStateVar.set_single_state (s : StateForStateVar) (index : StateIndex)
    (v : StateVarValue) (inst : Inst) :
    Except String (Option StateVarValue × StateForStateVar) :=
  match s, index with
  | .single entries, .Basic =>
      .ok (some v, .single (insertD entries inst (.Resolved v)))
  | .single _, _ => .error "setting a single state var with an array index"
  | .array entries, .SizeOf =>
      match v.toSize with
      | none => .error "setting an array size to a non-size value"
      | some n =>
          let a := (lookupD entries inst).getD ⟨.Stale, []⟩
          let els := a.elements.take n ++ List.replicate (n - a.elements.length) .Stale
          .ok (some v, .array (insertD entries inst ⟨.Resolved v, els⟩))
  | .array entries, .Element i =>
      let a := (lookupD entries inst).getD ⟨.Stale, []⟩
      if 1 ≤ i ∧ i ≤ a.elements.length then
        .ok (some v, .array (insertD entries inst
          ⟨a.size, a.elements.set (i - 1) (.Resolved v)⟩))
      else .error "setting an array element that does not exist"
  | .array _, .Basic => .error "setting an array state var with a basic index"

/-- Modelled from the spec: mark one slice Stale at one instance (state.rs
mark_stale_slice).  Marking a whole array marks its size and every element. -/
def StateForStateVar.mark_stale_slice (s : StateForStateVar)
    (slice : StateVarSlice) (inst : Inst) : StateForStateVar :=
  match s, slice with
  | .single entries, .Single (.Basic _) => .single (insertD entries inst .Stale)
  | .single entries, _ => .single entries
  | .array entries, .Single (.SizeOf _) =>
      let a := (lookupD entries inst).getD ⟨.Stale, []⟩
      .array (insertD entries inst ⟨.Stale, a.elements⟩)
  | .array entries, .Single (.ArrayElement _ i) =>
      let a := (lookupD entries inst).getD ⟨.Stale, []⟩
      if 1 ≤ i ∧ i ≤ a.elements.length then
        .array (insertD entries inst ⟨a.size, a.elements.set (i - 1) .Stale⟩)
      else .array entries
  | .array entries, .Array _ =>
      let a := (lookupD entries inst).getD ⟨.Stale, []⟩
      .array (insertD entries inst ⟨.Stale, a.elements.map (fun _ => .Stale)⟩)
  | .array entries, .Single (.Basic _) => .array entries

/-- Modelled from the spec: whether the given single reference is Resolved in
this per-instance array record. -/
def ArrayInstState.ref_resolved (a : ArrayInstState) : StateRef → Bool
  | .SizeOf _ => match a.size with | .Resolved _ => true | .Stale => false
  | .ArrayElement _ i =>
      match a.elements.get? (i - 1) with
      | some (.Resolved _) => i ≠ 0
      | _ => false
  | .Basic _ => false

/-- Modelled from the spec: the instances, within the given instance group,
at which the given slice is (at least partly) resolved (state.rs
instances_where_slice_is_resolved).  Only instances with an explicit entry can
be resolved, so those suffice. -/
def StateForStateVar.instances_where_slice_is_resolved (s : StateForStateVar)
    (slice : StateVarSlice) (group : InstanceGroup) : List Inst :=
  match s with
  | .single entries =>
      (entries.filter (fun e =>
        group.isPrefixOf e.1 &&
        (match slice, e.2 with
         | .Single (.Basic _), .Resolved _ => true
         | _, _ => false))).map Prod.fst
  | .array entries =>
      (entries.filter (fun e =>
        group.isPrefixOf e.1 &&
        (match slice with
         | .Single r => e.2.ref_resolved r
         | .Array _ =>
             (match e.2.size with | .Resolved _ => true | _ => false) ||
             e.2.elements.any (fun x => match x with | .Resolved _ => true | _ => false)))).map
        Prod.fst

/-! ## Essential data (state.rs EssentialStateVar, modelled) -/

/-- Modelled from the spec: an essential datum is a single value or a sparse
array with a default fill, possibly specialized per map instance.  Array
indices are 1-based outward: the value of element i lives in slot i-1, as
witnessed in lib.rs line 1050 where the attribute value with id i is stored at
slot i-1. -/
inductive EssentialStateVar
  | single (base : StateVarValue) (per_instance : List (Inst × StateVarValue))
  | array (base : List StateVarValue) (fill : StateVarValue)
      (per_instance : List (Inst × List StateVarValue))
deriving DecidableEq, Repr

def EssentialStateVar.new_single_basic_with_state_var_value
    (v : StateVarValue) : EssentialStateVar :=
  .single v []

def EssentialStateVar.new_array_with_state_var_values
    (vals : List StateVarValue) (fill : StateVarValue) : EssentialStateVar :=
  .array vals fill []

/-- Modelled from the spec: read an essential value (state.rs get_value).
Element 0 does not exist (indices are 1-based); an element beyond the stored
values reads the default fill. -/
def EssentialStateVar.get_value (e : EssentialStateVar) (index : StateIndex)
    (inst : Inst) : Option StateVarValue :=
  match e, index with
  | .single base per, .Basic => some ((lookupD per inst).getD base)
  | .single _ _, _ => none
  | .array base fill per, .Element i =>
      let vals := (lookupD per inst).getD base
      if i = 0 then none else some ((vals.get? (i - 1)).getD fill)
  | .array base _ per, .SizeOf =>
      some (.integer ((lookupD per inst).getD base).length)
  | .array _ _ _, .Basic => none

/-- Modelled from the spec: write an essential value (state.rs set_value).
Writing element i of an array with i = 0 is invalid (the store is 1-based);
writing past the end extends the array with the default fill. -/
def EssentialStateVar.set_value (e : EssentialStateVar) (index : StateIndex)
    (v : StateVarValue) (inst : Inst) : Except String EssentialStateVar :=
  match e, index with
  | .single base per, .Basic => .ok (.single base (insertD per inst v))
  | .single _ _, _ => .error "setting a single essential datum with an array index"
  | .array base fill per, .Element i =>
      if i = 0 then .error "setting essential array element 0 (indices start at 1)"
      else
        let vals := (lookupD per inst).getD base
        let padded := vals ++ List.replicate (i - vals.length) fill
        .ok (.array base fill (insertD per inst (padded.set (i - 1) v)))
  | .array base fill per, .SizeOf =>
      match v.toSize with
      | none => .error "setting an essential array size to a non-size value"
      | some n =>
          let vals := (lookupD per inst).getD base
          .ok (.array base fill (insertD per inst
            (vals.take n ++ List.replicate (n - vals.length) fill)))
  | .array _ _ _, .Basic => .error "setting an essential array with a basic index"

def EssentialStateVar.get_type_as_str : EssentialStateVar → String
  | .single base _ => base.type_as_str
  | .array _ fill _ => fill.type_as_str

end Doenet

namespace Doenet

/-! ## Dependency values and sources (state_variables.rs shapes used by lib.rs) -/

inductive DependencySource
  | StateVarSrc (component_type : String) (state_var_name : StateVarName)
  | EssentialSrc (value_type : String)
deriving DecidableEq, Repr

structure DependencyValue where
  source : DependencySource
  value : StateVarValue
deriving DecidableEq, Repr

abbrev DependencyValuesMap := List (InstructionName × List DependencyValue)

inductive UpdateInstructionV
  | NoChange
  | SetValue (v : StateVarValue)
deriving DecidableEq, Repr

/-- Dependency instructions declared by state variable definitions.  The
Parent and Child instruction kinds of the source are not modelled: no claim
exercises them (the claim scenarios use Essential, StateVar, Attribute and
CorrespondingElements instructions only). -/
inductive DependencyInstruction
  | Essential (prefill : Option AttributeName)
  | StateVar (component_ref : Option ComponentRef) (state_var : StateVarSlice)
  | CorrespondingElements (component_ref : Option ComponentRef)
      (array_state_var_name : StateVarName)
  | Attribute (attribute_name : AttributeName) (index : StateIndex)
deriving Repr

/-- Modelled from the spec: the value-shape tag of a StateVarVariant, which
lib.rs matches on in the Attribute instruction branch. -/
inductive SvKind
  | StringK
  | StringArrayK
  | NumberK
  | NumberArrayK
  | IntegerK
  | BooleanK
deriving DecidableEq, Repr

/-- Modelled from the spec: the capability interface of one pluggable state
variable definition (declare-dependencies, derive-value, invert-value,
is-array, default-value).  Concrete instances are data of the model. -/
structure StateVarDefData where
  kind : SvKind
  for_renderer : Bool := false
  initial_essential_value : StateVarValue
  return_dependency_instructions :
    List (InstructionName × DependencyInstruction) := []
  return_size_dependency_instructions :
    List (InstructionName × DependencyInstruction) := []
  return_array_dependency_instructions :
    List (InstructionName × DependencyInstruction) := []
  return_element_dependency_instructions :
    Nat → List (InstructionName × DependencyInstruction) := fun _ => []
  determine_state_var_from_dependencies :
    DependencyValuesMap → Except String UpdateInstructionV := fun _ => .ok .NoChange
  determine_size_from_dependencies :
    DependencyValuesMap → Except String UpdateInstructionV := fun _ => .ok .NoChange
  determine_element_from_dependencies :
    Nat → DependencyValuesMap → Except String UpdateInstructionV :=
      fun _ _ => .ok .NoChange
  request_dependencies_to_update_value :
    StateRef → StateVarValue →
    List (InstructionName × List (DependencySource × Option StateVarValue)) →
    Except String (List (InstructionName × Except String (List DependencyValue))) :=
      fun _ _ _ => .error "this state variable has no inverse definition"

def StateVarDefData.is_array (d : StateVarDefData) : Bool :=
  match d.kind with
  | .NumberArrayK => true
  | .StringArrayK => true
  | _ => false

/-- Modelled from the spec: the data of a batch definition that lib.rs reads
(size variable, per-member state var translation, member component type). -/
structure BatchDefData where
  size : StateRef
  member_state_var : Nat → StateVarSlice → Option StateVarSlice
  member_component_type : String

/-- Modelled from the spec: the data of a collection definition that lib.rs
reads.  The group_dependencies function of the source is a data field here. -/
structure CollectionDefData where
  member_component_type : String
  group_dependencies : List CollectionMembersOrCollection

inductive ReplacementComponents
  | Batch (b : BatchDefData)
  | Collection (c : CollectionDefData)
  | Children

/-- Modelled from the spec: one entry of the pluggable component catalogue.
The on_action function of the source also receives a resolver callback; the
only modelled action (movePoint of point.rs) ignores it, so it is omitted. -/
structure ComponentDefinition where
  component_type : String
  state_var_definitions : List (StateVarName × StateVarDefData)
  primary_input_state_var : Option StateVarName := none
  replacement_components : Option ReplacementComponents := none
  component_profile_match : List ComponentProfile → Option StateVarSlice :=
    fun _ => none
  on_action : String → List (String × StateVarValue) →
    Except String (List (StateRef × StateVarValue)) := fun _ _ => .ok []
  batches : List (BatchName × BatchDefData) := []

def ComponentDefinition.unwrap_batch_def (d : ComponentDefinition) :
    Option BatchName → Except String BatchDefData
  | none =>
      match d.replacement_components with
      | some (.Batch b) => .ok b
      | _ => .error "component is not a batch"
  | some n =>
      match lookupD d.batches n with
      | some b => .ok b
      | none => .error "no batch with this name"

/-- One node of the component tree (lib.rs ComponentNode). -/
structure ComponentNode where
  name : ComponentName
  parent : Option ComponentName := none
  children : List ComponentChild := []
  copy_source : Option CopySource := none
  static_attributes : List (String × String) := []
  definition : ComponentDefinition

/-- Trace events record each invocation of a derivation function
(generate_update_instruction_for_state_ref); they make the recomputation
counter of the specification observable in the model. -/
inductive TraceEvent
  | derive (comp : ComponentName) (inst : Inst) (ref : StateRef)
deriving DecidableEq, Repr

/-- The two mutable stores of the core (component_states and essential_data,
held in RefCells in the source) plus the observation trace. -/
structure Store where
  component_states :
    List (ComponentName × List (StateVarName × StateForStateVar))
  essential_data :
    List (ComponentName × List (EssentialDataOrigin × EssentialStateVar))
  trace : List TraceEvent := []
deriving DecidableEq, Repr

/-- The static part of a DoenetCore (lib.rs lines 30-62); the mutable stores
live in a separate Store value. -/
structure DoenetCore where
  component_nodes : List (ComponentName × ComponentNode)
  root_component_name : ComponentName
  dependencies : List (DependencyKey × List Dependency)
  group_dependencies : List (ComponentName × List CollectionMembers)

/-- Run-time failures of the model: fatal models a Rust panic, fuelOut models
non-termination of the original recursion. -/
inductive RunErr
  | fuelOut
  | fatal (msg : String)
deriving DecidableEq, Repr

/-! ## Store access helpers -/

def Store.get_state_var (st : Store) (c : ComponentName) (sv : StateVarName) :
    Option StateForStateVar :=
  (lookupD st.component_states c).bind (fun m => lookupD m sv)

def Store.set_state_var (st : Store) (c : ComponentName) (sv : StateVarName)
    (s : StateForStateVar) : Store :=
  { st with component_states :=
      updateD st.component_states c [] (fun m => insertD m sv s) }

def Store.get_essential (st : Store) (c : ComponentName)
    (origin : EssentialDataOrigin) : Option EssentialStateVar :=
  (lookupD st.essential_data c).bind (fun m => lookupD m origin)

def Store.set_essential (st : Store) (c : ComponentName)
    (origin : EssentialDataOrigin) (e : EssentialStateVar) : Store :=
  { st with essential_data :=
      updateD st.essential_data c [] (fun m => insertD m origin e) }

def Store.push_event (st : Store) (e : TraceEvent) : Store :=
  { st with trace := st.trace ++ [e] }

end Doenet

namespace Doenet

/-! ## Small pure helpers from lib.rs -/

/-- The array-vs-single compatibility test of the invalidation pass
(lib.rs lines 2311-2324).  Note: in the final match arm the source binds the
FIRST field of each ArrayElement, which is the state variable name, not the
element index; the comparison i == j therefore compares names.  The model
reproduces this exactly. -/
def slice_depends_on_slice (a b : StateVarSlice) : Bool :=
  a.name == b.name &&
  match a, b with
  | .Array _, _ => true
  | _, .Array _ => true
  | _, .Single (.SizeOf _) => true
  | .Single (.Basic _), .Single (.Basic _) => true
  | .Single (.ArrayElement i _), .Single (.ArrayElement j _) => i == j
  | _, _ => false

/-- Keys of the dependency graph that feed the given single state variable:
the exactly matching Single key and, for an array element, the Array key of
its array (lib.rs lines 1905-1938).  Edge lists under the same instruction
name are combined with duplicate filtering. -/
def dependencies_of_state_var
    (dependencies : List (DependencyKey × List Dependency))
    (component_state : ComponentStateAllInstances) :
    List (InstructionName × List Dependency) :=
  let deps := dependencies.filterMap (fun kd =>
    let key := kd.1
    let key_is_me := key.slice.comp == component_state.comp &&
      (key.slice.slice == .Single component_state.ref ||
       ((match component_state.ref with
         | .ArrayElement _ _ => true
         | _ => false) &&
        key.slice.slice == .Array component_state.ref.name))
    if key_is_me then some (key.instruction, kd.2) else none)
  deps.foldl (fun combined kv =>
    match lookupD combined kv.1 with
    | some accum =>
        insertD combined kv.1 (accum ++ kv.2.filter (fun x => !accum.contains x))
    | none => insertD combined kv.1 kv.2) []

/-- Without resolving any state variables, can the collection contain the
component (lib.rs lines 2746-2758). -/
def collection_may_contain (members : List CollectionMembers)
    (component : ComponentName) : Bool :=
  members.any (fun c =>
    match c with
    | .ComponentOnCondition n _ => n == component
    | .InstanceBySources n _ => n == component
    | .Batch n => n == component
    | .Component n => n == component)

/-- The member state variable slice of a batch member
(lib.rs lines 2763-2773). -/
def batch_state_var (core : DoenetCore)
    (component_slice : ComponentStateSliceAllInstances)
    (batch_name : Option BatchName) (index : Nat) :
    Except String (Option StateVarSlice) := do
  match lookupD core.component_nodes component_slice.comp with
  | none => .error "batch_state_var: component not found"
  | some node => do
      let bd ← node.definition.unwrap_batch_def batch_name
      .ok (bd.member_state_var index component_slice.slice)

/-- Modelled from the spec: definition_of_members of component/mod.rs reduced
to the member component type, which is all that lib.rs reads from it here
(group_member_definition, lib.rs lines 2818-2825). -/
def group_member_component_type (component_nodes : List (ComponentName × ComponentNode))
    (component_group : ComponentGroup) : Except String String :=
  match lookupD component_nodes component_group.name with
  | none => .error "group_member_component_type: component not found"
  | some node =>
      match node.definition.replacement_components with
      | some (.Batch b) => .ok b.member_component_type
      | some (.Collection c) => .ok c.member_component_type
      | _ => .ok node.definition.component_type

/-- Modelled from the spec: component_ref_definition of lib.rs lines 2827-2842
reduced to the member component type. -/
def component_ref_component_type (component_nodes : List (ComponentName × ComponentNode))
    (component_ref : ComponentRef) : Except String String :=
  match lookupD component_nodes component_ref.name with
  | none => .error "component_ref_component_type: component not found"
  | some node =>
      match component_ref with
      | .CollectionMember _ _ =>
          match node.definition.replacement_components with
          | some (.Collection c) => .ok c.member_component_type
          | _ => .error "component is not a collection"
      | .BatchMember _ n _ => do
          let bd ← node.definition.unwrap_batch_def n
          .ok bd.member_component_type
      | .Basic _ => .ok node.definition.component_type

/-- Vector of parents beginning with the immediate parent, ending with the
root (lib.rs lines 2941-2953).  The walk is fueled; a missing parent node
ends the walk. -/
def parent_chain_aux (component_nodes : List (ComponentName × ComponentNode)) :
    Nat → ComponentName → List ComponentName
  | 0, _ => []
  | fuel+1, c =>
      match lookupD component_nodes c with
      | none => []
      | some node =>
          match node.parent with
          | none => []
          | some p => p :: parent_chain_aux component_nodes fuel p

def parent_chain (component_nodes : List (ComponentName × ComponentNode))
    (component : ComponentName) : List ComponentName :=
  parent_chain_aux component_nodes (component_nodes.length + 1) component

/-- Modelled from the spec: get_children_of_type of base_definitions.rs — the
component children of a node whose definition has the given component type. -/
def get_children_of_type (component_nodes : List (ComponentName × ComponentNode))
    (parent : ComponentNode) (ctype : String) : List ComponentName :=
  parent.children.filterMap (fun ch =>
    match ch with
    | .Component n =>
        match lookupD component_nodes n with
        | some cn =>
            if cn.definition.component_type == ctype then some n else none
        | none => none
    | .String _ => none)

/-- The sources collections of the maps enclosing a component, outermost
first (lib.rs lines 2920-2938). -/
def sources_that_instance_component
    (component_nodes : List (ComponentName × ComponentNode))
    (component : ComponentName) : List ComponentName :=
  let parents := (parent_chain component_nodes component).reverse
  let children := parents.drop 1
  (parents.zip children).filterMap (fun pc =>
    match lookupD component_nodes pc.1, lookupD component_nodes pc.2 with
    | some pn, some cn =>
        if pn.definition.component_type == "map" &&
           cn.definition.component_type == "template" then
          (get_children_of_type component_nodes pn "sources").head?
        else none
    | _, _ => none)

/-- Translate an instance relative to the enclosing maps of a dependency
(lib.rs lines 2874-2899). -/
def instance_relative_to_group_internal
    (component_nodes : List (ComponentName × ComponentNode))
    (component_node_instance : ComponentNodeInstance)
    (component_node_relative : ComponentNodeRelative) :
    InstanceGroup × List ComponentName :=
  let map := component_node_instance.inst
  let sources_for_component :=
    sources_that_instance_component component_nodes component_node_instance.comp
  let sources_for_dependency :=
    sources_that_instance_component component_nodes component_node_relative.comp
  if sources_for_dependency.length ≤ sources_for_component.length then
    (map.take sources_for_dependency.length, sources_for_dependency)
  else
    (map ++ component_node_relative.rel, sources_for_dependency)

def instance_relative_to_group (core : DoenetCore)
    (component_node_instance : ComponentNodeInstance)
    (component_node_relative : ComponentNodeRelative) : InstanceGroup :=
  (instance_relative_to_group_internal core.component_nodes
    component_node_instance component_node_relative).1

/-- Instance translation for a single component reference
(lib.rs lines 1454-1465); the length assertion of the source is a fatal
error here. -/
def ComponentRefRelative.instance_relative_to (self : ComponentRefRelative)
    (component_nodes : List (ComponentName × ComponentNode))
    (component_node_instance : ComponentNodeInstance) :
    Except String ComponentRefInstance :=
  let (group, sources) := instance_relative_to_group_internal component_nodes
    component_node_instance ⟨self.ref.name, self.rel⟩
  if group.length = sources.length then .ok ⟨self.ref, group⟩
  else .error "assertion failed: instance_relative_to"

/-- Instance translation for a component node (lib.rs lines 1467-1477). -/
def ComponentNodeRelative.instance_relative_to (self : ComponentNodeRelative)
    (component_nodes : List (ComponentName × ComponentNode))
    (component_node_instance : ComponentNodeInstance) :
    Except String ComponentNodeInstance :=
  let (group, sources) := instance_relative_to_group_internal component_nodes
    component_node_instance self
  if group.length = sources.length then .ok ⟨self.comp, group⟩
  else .error "assertion failed: instance_relative_to"

/-- Recurse until the name of the original copy source is found, so copies
share essential data (lib.rs lines 3076-3092).  The recursion is fueled;
exhaustion models the divergence of the source on a cyclic copy chain. -/
def get_recursive_copy_source_aux
    (component_nodes : List (ComponentName × ComponentNode)) :
    Nat → ComponentName → Except RunErr ComponentNodeRelative
  | 0, _ => .error .fuelOut
  | fuel+1, component_name =>
      match lookupD component_nodes component_name with
      | none => .error (.fatal "component not found")
      | some component =>
          match component.copy_source with
          | some (.Component ⟨.Basic source, instance1⟩) => do
              let component_relative ←
                get_recursive_copy_source_aux component_nodes fuel source
              .ok ⟨component_relative.comp, instance1 ++ component_relative.rel⟩
          | _ => .ok ⟨component.name, []⟩

def get_recursive_copy_source_component_when_exists
    (component_nodes : List (ComponentName × ComponentNode))
    (component_name : ComponentName) : Except RunErr ComponentNodeRelative :=
  get_recursive_copy_source_aux component_nodes
    (component_nodes.length + 1) component_name

/-- Modelled from the spec: one decimal digit. -/
def charDigit (c : Char) : Option Nat :=
  if 48 ≤ c.toNat ∧ c.toNat ≤ 57 then some (c.toNat - 48) else none

def natOfDigitsAux : List Char → Nat → Option Nat
  | [], acc => some acc
  | c :: t, acc =>
      match charDigit c with
      | some d => natOfDigitsAux t (acc * 10 + d)
      | none => none

/-- Modelled from the spec: decimal integer parsing (in place of the string
and expression parsing of the excluded crates). -/
def strToInt (s : String) : Option Int :=
  match s.data with
  | [] => none
  | c :: t =>
      if c = Char.ofNat 45 then
        match t with
        | [] => none
        | _ => (natOfDigitsAux t 0).map (fun n => -(n : Int))
      else (natOfDigitsAux (c :: t) 0).map (fun n => (n : Int))

/-- Conversion of a raw string into a typed value
(lib.rs lines 1183-1219); the evalexpr evaluation of the source is modelled
as integer parsing. -/
def package_string_as_state_var_value (input_string : String)
    (state_var_variant : StateVarDefData) : Except String StateVarValue :=
  match state_var_variant.kind with
  | .StringArrayK => .ok (.str input_string)
  | .StringK => .ok (.str input_string)
  | .BooleanK =>
      if input_string == "true" then .ok (.boolean true)
      else if input_string == "false" then .ok (.boolean false)
      else .error "cannot evaluate string as boolean"
  | .IntegerK =>
      match strToInt input_string with
      | some val => .ok (.integer val)
      | none => .error "cannot package string as integer"
  | .NumberArrayK =>
      match strToInt input_string with
      | some val => .ok (.number val)
      | none => .error "cannot package string as number"
  | .NumberK =>
      match strToInt input_string with
      | some val => .ok (.number val)
      | none => .error "cannot package string as number"

/-- Modelled from the spec: a math expression built from attribute objects,
represented by the integer value of its constant part. -/
def math_expression_of_objects (objs : List ObjectName) : Int :=
  (strToInt (objs.foldl (fun acc o =>
    match o with
    | .String s => acc ++ s
    | .Component _ => acc) "")).getD 0

/-! ## Errors of construction (parse_json.rs DoenetMLError, modelled) -/

/-- Modelled from the spec: the closed set of construction errors; only the
constructors that the modelled code paths can produce are included. -/
inductive DoenetMLError
  | ComponentDoesNotExist (comp_name : ComponentName)
  | StateVarDoesNotExist (comp_name : ComponentName) (sv_name : String)
  | CyclicalDependency (component_chain : List ComponentName)
deriving DecidableEq, Repr

/-! ## Static validators (lib.rs lines 3216-3378) -/

/-- Outcome of one copy-source chain walk. -/
inductive CopyWalk
  | found (e : DoenetMLError)
  | ended
  | missing
  | fuelOut
deriving DecidableEq, Repr

/-- The chain walk of check_cyclic_copy_source_component
(lib.rs lines 3234-3271): follow whole-component copy sources, accumulating
the chain of names; a revisited name reports the chain from its first
occurrence. -/
def check_cyclic_copy_walk (components : List (ComponentName × ComponentNode)) :
    Nat → ComponentNode → List ComponentName → CopyWalk
  | 0, _, _ => .fuelOut
  | fuel+1, current_comp, chain =>
      match current_comp.copy_source with
      | some (.Component component_ref_relative) =>
          if current_comp.name ∈ chain then
            let chain2 := chain ++ [current_comp.name]
            let start_index := chain2.indexOf current_comp.name
            .found (.CyclicalDependency (chain2.drop start_index))
          else
            match lookupD components component_ref_relative.ref.name with
            | none => .missing
            | some next =>
                check_cyclic_copy_walk components fuel next
                  (chain ++ [current_comp.name])
      | _ => .ended

def check_cyclic_copy_source_component
    (components : List (ComponentName × ComponentNode))
    (component : ComponentNode) : Except RunErr (Option DoenetMLError) :=
  match check_cyclic_copy_walk components (components.length + 1) component [] with
  | .found e => .ok (some e)
  | .ended => .ok none
  | .missing => .error (.fatal "copy source component not found")
  | .fuelOut => .error .fuelOut

def check_for_cyclical_copy_sources_aux
    (components : List (ComponentName × ComponentNode)) :
    List ComponentNode → Except RunErr (Option DoenetMLError)
  | [] => .ok none
  | c :: rest => do
      match ← check_cyclic_copy_source_component components c with
      | some e => .ok (some e)
      | none => check_for_cyclical_copy_sources_aux components rest

/-- Walk every copy chain and report the first cycle
(lib.rs lines 3216-3231). -/
def check_for_cyclical_copy_sources
    (component_nodes : List (ComponentName × ComponentNode)) :
    Except RunErr (Option DoenetMLError) :=
  let copy_comp_targets := component_nodes.filterMap (fun cn =>
    match cn.2.copy_source with
    | some (.Component _) => some cn.2
    | _ => none)
  check_for_cyclical_copy_sources_aux component_nodes copy_comp_targets

/-- Attribute component objects must name existing components
(lib.rs lines 3274-3297). -/
def check_for_invalid_component_names
    (component_nodes : List (ComponentName × ComponentNode))
    (component_attributes :
      List (ComponentName × List (AttributeName × List (Nat × List ObjectName)))) :
    Option DoenetMLError :=
  component_attributes.firstM (fun ca =>
    ca.2.firstM (fun attrs =>
      attrs.2.firstM (fun attribute_list =>
        attribute_list.2.firstM (fun attr_object =>
          match attr_object with
          | .Component comp_obj =>
              if containsD component_nodes comp_obj then none
              else some (.ComponentDoesNotExist comp_obj)
          | _ => none))))

/-- The depth-first dependency-cycle walk
(lib.rs lines 3316-3378).  Only Dependency::StateVar edges between exactly
matching key slices are followed, as in the source. -/
def check_for_cyclical_dependency_chain
    (dependencies : List (DependencyKey × List Dependency)) :
    Nat → List (ComponentName × StateVarSlice) →
    Except RunErr (Option DoenetMLError)
  | 0, _ => .error .fuelOut
  | fuel+1, dependency_chain =>
      match dependency_chain.getLast? with
      | none => .error (.fatal "empty dependency chain")
      | some last_link =>
          let my_dependencies := dependencies.filter (fun kd =>
            kd.1.slice.comp == last_link.1 && kd.1.slice.slice == last_link.2)
          my_dependencies.foldlM (fun acc kd =>
            match acc with
            | some e => .ok (some e)
            | none => kd.2.foldlM (fun acc2 dep =>
                match acc2 with
                | some e => .ok (some e)
                | none =>
                    match dep with
                    | .StateVar component_states =>
                        let new_link := (component_states.groupRel.group.name,
                          component_states.slice)
                        if new_link ∈ dependency_chain then
                          let chain2 := dependency_chain ++ [new_link]
                          let start_index := chain2.indexOf new_link
                          let relevant_chain := chain2.drop start_index
                          let component_chain := relevant_chain.foldl
                            (fun (cc : List ComponentName) link =>
                              if cc.getLast? == some link.1 then cc
                              else cc ++ [link.1]) []
                          .ok (some (.CyclicalDependency component_chain))
                        else
                          check_for_cyclical_dependency_chain dependencies fuel
                            (dependency_chain ++ [new_link])
                    | _ => .ok none) none) none

/-- A fuel bound large enough for every simple path of the dependency DFS. -/
def dependency_chain_fuel (dependencies : List (DependencyKey × List Dependency)) :
    Nat :=
  dependencies.foldl (fun n kd => n + 1 + kd.2.length) 2

/-- Run the dependency-cycle check from every key
(lib.rs lines 3300-3312). -/
def check_for_cyclical_dependencies
    (dependencies : List (DependencyKey × List Dependency)) :
    Except RunErr (Option DoenetMLError) :=
  dependencies.foldlM (fun acc kd =>
    match acc with
    | some e => .ok (some e)
    | none => check_for_cyclical_dependency_chain dependencies
        (dependency_chain_fuel dependencies)
        [(kd.1.slice.comp, kd.1.slice.slice)]) none

end Doenet

namespace Doenet

/-! ## Essential data creation (lib.rs lines 1234-1282) -/

abbrev EssentialData :=
  List (ComponentName × List (EssentialDataOrigin × EssentialStateVar))

abbrev CompAttrs := List (AttributeName × List (Nat × List ObjectName))

inductive InitialEssentialData
  | Single (v : StateVarValue)
  | Array (vals : List StateVarValue) (fill : StateVarValue)

/-- Add essential data for a state variable or string child
(lib.rs lines 1240-1265).  The source asserts that no datum already exists
for the key before the entry().or_insert() insertion; the assertion is the
error side here. -/
def create_essential_data_for (component_name : ComponentName)
    (origin : EssentialDataOrigin) (initial_values : InitialEssentialData)
    (essential_data : EssentialData) : Except String EssentialData :=
  let essential_state :=
    match initial_values with
    | .Single value =>
        EssentialStateVar.new_single_basic_with_state_var_value value
    | .Array values default_fill_value =>
        EssentialStateVar.new_array_with_state_var_values values default_fill_value
  let inserted := updateD essential_data component_name [] (fun m =>
    match lookupD m origin with
    | some existing => insertD m origin existing
    | none => insertD m origin essential_state)
  match lookupD essential_data component_name with
  | some comp_essential_data =>
      if containsD comp_essential_data origin then
        .error "assertion failed: essential data already exists for this origin"
      else .ok inserted
  | none => .ok inserted

def essential_data_exists_for (component_name : ComponentName)
    (origin : EssentialDataOrigin) (essential_data : EssentialData) : Bool :=
  match lookupD essential_data component_name with
  | some comp_essen => containsD comp_essen origin
  | none => false

/-! ## Dependency graph builder (lib.rs lines 432-1180) -/

/-- Compile one dependency instruction into its edges, creating essential
data on first encounter (lib.rs lines 676-1137).  The Parent and Child
branches of the source are not modelled (no claim exercises them). -/
def create_dependencies_from_instruction
    (components : List (ComponentName × ComponentNode))
    (component_slice : ComponentStateSliceAllInstances)
    (component_attributes : CompAttrs)
    (instruction : DependencyInstruction)
    (essential_data : EssentialData)
    (should_init_essential_data : Bool) :
    Except RunErr (List Dependency × EssentialData) := do
  match lookupD components component_slice.comp with
  | none => .error (.fatal "create_dependencies_from_instruction: component not found")
  | some component =>
    let state_var_slice := component_slice.slice
    match instruction with
    | .Essential prefill => do
        let source_relative ←
          get_recursive_copy_source_component_when_exists components
            component_slice.comp
        let essential_origin := EssentialDataOrigin.StateVar state_var_slice.name
        let essential_data2 ←
          if should_init_essential_data && source_relative.comp == component.name then do
            match lookupD component.definition.state_var_definitions
                state_var_slice.name with
            | none => .error (.fatal "state var definition not found")
            | some sv_def => do
                let prefill_value ←
                  match prefill with
                  | none => pure none
                  | some prefill_attr_name =>
                      match lookupD component_attributes prefill_attr_name with
                      | none => pure none
                      | some attr =>
                          match lookupD attr 1 with
                          | none => .error (.fatal "prefill attribute has no index 1")
                          | some objs =>
                              match objs.head? with
                              | none => .error (.fatal "prefill attribute is empty")
                              | some (.String actual_str) =>
                                  pure ((package_string_as_state_var_value
                                    actual_str sv_def).toOption)
                              | some (.Component _) => pure none
                let initial_data :=
                  prefill_value.getD sv_def.initial_essential_value
                let initial_data :=
                  if sv_def.is_array then InitialEssentialData.Array [] initial_data
                  else InitialEssentialData.Single initial_data
                (create_essential_data_for source_relative.comp essential_origin
                  initial_data essential_data).mapError RunErr.fatal
          else pure essential_data
        .ok ([Dependency.Essential source_relative.comp essential_origin],
          essential_data2)
    | .StateVar component_ref state_var =>
        let component_ref :=
          component_ref.getD (ComponentRef.Basic component.name)
        .ok ([Dependency.StateVar
          ⟨⟨.Single component_ref, []⟩, state_var⟩], essential_data)
    | .CorrespondingElements component_ref array_state_var_name =>
        let component_ref :=
          component_ref.getD (ComponentRef.Basic component.name)
        .ok ([Dependency.StateVarArrayCorrespondingElement
          ⟨⟨component_ref, []⟩, array_state_var_name⟩], essential_data)
    | .Attribute attribute_name index => do
        let state_var_name := state_var_slice.name
        let state_var_ref := StateRef.from_name_and_index state_var_name index
        match lookupD component.definition.state_var_definitions state_var_name with
        | none => .error (.fatal "state var definition not found")
        | some sv_def => do
          let essential_origin := EssentialDataOrigin.StateVar state_var_name
          let default_value ←
            match sv_def.kind with
            | .NumberArrayK | .NumberK | .IntegerK =>
                match sv_def.initial_essential_value with
                | .number v => pure (StateVarValue.mathExpr v)
                | .integer v => pure (StateVarValue.mathExpr v)
                | _ => .error (.fatal "unreachable: numeric initial value expected")
            | _ => pure sv_def.initial_essential_value
          match lookupD component_attributes attribute_name with
          | none =>
              match component.copy_source with
              | some (.Component component_ref_relative) =>
                  .ok ([Dependency.StateVar
                    ⟨⟨.Single component_ref_relative.ref,
                      component_ref_relative.rel⟩,
                     .Single state_var_ref⟩], essential_data)
              | _ => do
                  let essential_data2 ←
                    if should_init_essential_data then
                      (create_essential_data_for component.name
                        (.StateVar state_var_name) (.Single default_value)
                        essential_data).mapError RunErr.fatal
                    else pure essential_data
                  .ok ([Dependency.Essential component.name essential_origin],
                    essential_data2)
          | some attr => do
              let get_value_from_object_list :
                  List ObjectName → Except RunErr StateVarValue := fun obj_list =>
                match sv_def.kind with
                | .NumberK | .NumberArrayK | .IntegerK | .BooleanK =>
                    .ok (.mathExpr (math_expression_of_objects obj_list))
                | _ =>
                    if obj_list.length > 0 then
                      match obj_list.head? with
                      | none => .ok default_value
                      | some first_obj =>
                          if obj_list.length > 1 then
                            .error (.fatal
                              "multiple objects for non mathexpression state var")
                          else
                            match first_obj with
                            | .String str_val =>
                                (package_string_as_state_var_value str_val
                                  sv_def).mapError RunErr.fatal
                            | _ => .ok default_value
                    else .ok default_value
              let essential_data2 ←
                if should_init_essential_data &&
                   !(essential_data_exists_for component.name essential_origin
                     essential_data) then do
                  let initial_essential_data ←
                    if sv_def.is_array then do
                      let essential_attr_objs ← attr.foldlM
                        (fun (acc : List StateVarValue) entry => do
                          let value ← get_value_from_object_list entry.2
                          if entry.1 = 0 then
                            .error (.fatal "index out of bounds: attribute id 0")
                          else
                            let acc :=
                              if entry.1 > acc.length then
                                acc ++ List.replicate (entry.1 - acc.length)
                                  default_value
                              else acc
                            .ok (acc.set (entry.1 - 1) value)) []
                      pure (InitialEssentialData.Array essential_attr_objs
                        default_value)
                    else do
                      if attr.length ≠ 1 then
                        .error (.fatal "assertion failed: attribute.keys().len() == 1")
                      else
                        match lookupD attr 1 with
                        | none => .error (.fatal "attribute has no index 1")
                        | some obj_list => do
                            let value ← get_value_from_object_list obj_list
                            pure (InitialEssentialData.Single value)
                  (create_essential_data_for component.name essential_origin
                    initial_essential_data essential_data).mapError RunErr.fatal
                else pure essential_data
              if index = StateIndex.SizeOf then
                .ok ([Dependency.Essential component.name essential_origin],
                  essential_data2)
              else
                let attribute_index :=
                  match index with
                  | .Element i => i
                  | _ => 1
                match lookupD attr attribute_index with
                | none => .error (.fatal "attribute does not have this index")
                | some attr_objects => do
                    let (dependencies0, relevant_attr_objects) :=
                      match sv_def.kind with
                      | .NumberK | .NumberArrayK | .IntegerK =>
                          ([Dependency.Essential component.name essential_origin],
                           attr_objects.filter (fun obj =>
                             match obj with
                             | ObjectName.Component _ => true
                             | _ => false))
                      | _ => ([], attr_objects)
                    let deps2 ← relevant_attr_objects.mapM (fun attr_object =>
                      match attr_object with
                      | ObjectName.String _ =>
                          Except.ok (Dependency.Essential component.name
                            essential_origin)
                      | ObjectName.Component comp_name =>
                          match lookupD components comp_name with
                          | none => .error (.fatal "attribute component not found")
                          | some comp =>
                              match comp.definition.primary_input_state_var with
                              | none => .error (.fatal
                                  "attribute cannot depend on a non-primitive component")
                              | some primary_input_sv =>
                                  .ok (Dependency.StateVar
                                    ⟨⟨.Single (.Basic comp_name), []⟩,
                                     .Single (.Basic primary_input_sv)⟩))
                    .ok (dependencies0 ++ deps2, essential_data2)

def PROP_INDEX_SV : StateVarName := "propIndex"

/-- Modelled from the spec: the two instruction names that
base_definitions.rs uses for the propIndex variable. -/
def PROP_INDEX_VARS_INSTRUCTION : InstructionName := "indexVariableValues"

def PROP_INDEX_EXPR_INSTRUCTION : InstructionName := "indexExpression"

/-- Dependencies for the propIndex of a dynamic-element copy source
(lib.rs lines 1140-1180).  Note that the source creates the essential datum
unconditionally, without consulting should_initialize_essential_data and
without an existence check. -/
def create_prop_index_dependencies (component : ComponentNode)
    (math_expression : Int) (variable_components : List ComponentName)
    (essential_data : EssentialData) :
    Except String (List (DependencyKey × List Dependency) × EssentialData) := do
  let component_slice : ComponentStateSliceAllInstances :=
    ⟨component.name, .Single (.Basic PROP_INDEX_SV)⟩
  let deps_vars :=
    (DependencyKey.mk component_slice PROP_INDEX_VARS_INSTRUCTION,
     variable_components.map (fun comp_name =>
       Dependency.StateVar ⟨⟨.Single (.Basic comp_name), []⟩,
         .Single (.Basic "value")⟩))
  let origin := EssentialDataOrigin.StateVar PROP_INDEX_SV
  let essential_data2 ← create_essential_data_for component.name origin
    (.Single (.mathExpr math_expression)) essential_data
  .ok ([deps_vars,
    (DependencyKey.mk component_slice PROP_INDEX_EXPR_INSTRUCTION,
     [Dependency.Essential component.name origin])], essential_data2)

/-- Compile every instruction set of every state variable of one component
(lib.rs lines 502-671).  For an array this is the size set, the whole-array
set, and element sets for the attribute-specified indices plus the heuristic
indices 1 and 2. -/
def create_all_dependencies_for_component
    (components : List (ComponentName × ComponentNode))
    (component_name : ComponentName)
    (component_attributes : CompAttrs)
    (essential_data : EssentialData)
    (should_init_essential_data : Bool)
    (element_specific_dependencies : List ((ComponentRef × StateVarName) × List Nat)) :
    Except RunErr (List (DependencyKey × List Dependency) × EssentialData) := do
  match lookupD components component_name with
  | none => .error (.fatal "create_all_dependencies_for_component: component not found")
  | some component => do
    let step : List (DependencyKey × List Dependency) × EssentialData →
        ComponentStateSliceAllInstances →
        List (InstructionName × DependencyInstruction) →
        Except RunErr (List (DependencyKey × List Dependency) × EssentialData) :=
      fun acc component_slice instructions =>
        instructions.foldlM (fun acc2 pair => do
          let (ds, ed) := acc2
          let (instruct_dependencies, ed2) ←
            create_dependencies_from_instruction components component_slice
              component_attributes pair.2 ed should_init_essential_data
          .ok (ds ++ [(DependencyKey.mk component_slice pair.1,
            instruct_dependencies)], ed2)) acc
    let start ←
      match component.copy_source with
      | some (.DynamicElement _ _ expr variable_components) =>
          (create_prop_index_dependencies component expr variable_components
            essential_data).mapError RunErr.fatal
      | _ => pure ([], essential_data)
    component.definition.state_var_definitions.foldlM (fun acc svd => do
      let (state_var_name, state_var_variant) := svd
      if state_var_variant.is_array then do
        let acc ← step acc
          ⟨component_name, .Single (.SizeOf state_var_name)⟩
          state_var_variant.return_size_dependency_instructions
        let acc ← step acc
          ⟨component_name, .Array state_var_name⟩
          state_var_variant.return_array_dependency_instructions
        let elements :=
          (lookupD element_specific_dependencies
            (ComponentRef.Basic component.name, state_var_name)).getD []
        let elements := if elements.contains 1 then elements else elements ++ [1]
        let elements := if elements.contains 2 then elements else elements ++ [2]
        elements.foldlM (fun acc3 index =>
          step acc3 ⟨component_name, .Single (.ArrayElement state_var_name index)⟩
            (state_var_variant.return_element_dependency_instructions index)) acc
      else
        step acc ⟨component_name, .Single (.Basic state_var_name)⟩
          state_var_variant.return_dependency_instructions) start

/-- Build the whole dependency graph and the essential data store
(lib.rs lines 432-499). -/
def create_dependencies_and_essential_data
    (component_nodes : List (ComponentName × ComponentNode))
    (component_attributes : List (ComponentName × CompAttrs))
    (existing_essential_data : Option EssentialData) :
    Except RunErr (List (DependencyKey × List Dependency) × EssentialData) := do
  let element_specific_dependencies ←
    component_nodes.foldlM (fun (acc : List ((ComponentRef × StateVarName) × List Nat)) cn =>
      cn.2.definition.state_var_definitions.foldlM (fun acc2 svd => do
        if !svd.2.is_array then pure acc2
        else do
          let possible_attributes ←
            match lookupD component_attributes cn.1 with
            | some my_own_comp_attrs => pure (some my_own_comp_attrs)
            | none =>
                match cn.2.copy_source with
                | some (.Component _) => do
                    let component_relative ←
                      get_recursive_copy_source_component_when_exists
                        component_nodes cn.1
                    pure (lookupD component_attributes component_relative.comp)
                | _ => pure none
          match possible_attributes with
          | none => pure acc2
          | some attribute_for_comp =>
              match lookupD attribute_for_comp svd.1 with
              | none => pure acc2
              | some attribute_for_sv =>
                  pure (insertD acc2 (ComponentRef.Basic cn.1, svd.1)
                    (attribute_for_sv.map Prod.fst))) acc) []
  let should_init_essential_data := existing_essential_data.isNone
  let essential_data := existing_essential_data.getD []
  component_nodes.foldlM (fun acc cn => do
    let (deps, ed) := acc
    let (ds, ed2) ← create_all_dependencies_for_component component_nodes cn.1
      ((lookupD component_attributes cn.1).getD []) ed
      should_init_essential_data element_specific_dependencies
    .ok (deps ++ ds, ed2)) ([], essential_data)

/-- Fresh all-Stale cache cells for every component
(lib.rs lines 1285-1306). -/
def create_stale_component_states
    (component_nodes : List (ComponentName × ComponentNode)) :
    List (ComponentName × List (StateVarName × StateForStateVar)) :=
  component_nodes.map (fun cn =>
    let base := cn.2.definition.state_var_definitions.map (fun svd =>
      (svd.1, StateForStateVar.new svd.2.is_array))
    let with_prop :=
      match cn.2.copy_source with
      | some (.DynamicElement _ _ _ _) =>
          insertD base PROP_INDEX_SV (StateForStateVar.new false)
      | _ => base
    (cn.1, with_prop))

/-- Flatten collections so that collections never point to other collections
(lib.rs lines 408-422); the recursion is fueled. -/
def flat_members_for_collection
    (group_dependencies : List (ComponentName × List CollectionMembersOrCollection)) :
    Nat → ComponentName → List CollectionMembers
  | 0, _ => []
  | fuel+1, component =>
      ((lookupD group_dependencies component).getD []).flatMap (fun c =>
        match c with
        | .Collection c2 => flat_members_for_collection group_dependencies fuel c2
        | .Members m => [m])

/-- Collection membership lists (lib.rs lines 392-429). -/
def create_group_dependencies
    (component_nodes : List (ComponentName × ComponentNode)) :
    List (ComponentName × List CollectionMembers) :=
  let group_dependencies := component_nodes.filterMap (fun cn =>
    match cn.2.definition.replacement_components with
    | some (.Collection group_def) => some (cn.1, group_def.group_dependencies)
    | _ => none)
  group_dependencies.map (fun kv =>
    (kv.1, flat_members_for_collection group_dependencies
      (group_dependencies.length + 1) kv.1))

/-- Core construction (lib.rs lines 149-194), modelled from the already
converted component tree onward: markup parsing and MLComponent conversion
are outside the given sources.  The outer Except models panics and
divergence, the inner Except is the Result of the source; on any
DoenetMLError no core is produced. -/
def create_doenet_core
    (component_nodes : List (ComponentName × ComponentNode))
    (component_attributes : List (ComponentName × CompAttrs))
    (root_component_name : ComponentName)
    (existing_essential_data : Option EssentialData) :
    Except RunErr (Except DoenetMLError (DoenetCore × Store)) := do
  match ← check_for_cyclical_copy_sources component_nodes with
  | some e => .ok (.error e)
  | none =>
    match check_for_invalid_component_names component_nodes component_attributes with
    | some e => .ok (.error e)
    | none => do
      let group_dependencies := create_group_dependencies component_nodes
      let (dependencies, essential_data) ←
        create_dependencies_and_essential_data component_nodes
          component_attributes existing_essential_data
      match ← check_for_cyclical_dependencies dependencies with
      | some e => .ok (.error e)
      | none =>
        let component_states := create_stale_component_states component_nodes
        .ok (.ok
          ({ component_nodes := component_nodes
             root_component_name := root_component_name
             dependencies := dependencies
             group_dependencies := group_dependencies },
           { component_states := component_states
             essential_data := essential_data
             trace := [] }))

end Doenet

namespace Doenet

/-! ## Conversions used by the resolver (lib.rs lines 1500-1543) -/

def ComponentState.ignore_instance (s : ComponentState) :
    ComponentStateAllInstances :=
  ⟨s.node.comp, s.ref⟩

def ComponentState.new_index (s : ComponentState) (index : StateIndex) :
    ComponentState :=
  ⟨s.node, StateRef.from_name_and_index s.ref.name index⟩

def ComponentState.replace_state_var (s : ComponentState) (r : StateRef) :
    ComponentState :=
  ⟨s.node, r⟩

/-- Index a slice down to one single state (lib.rs lines 1522-1531); the
panicking arms of the source are errors. -/
def ComponentStateSlice.index (s : ComponentStateSlice) (index : StateIndex) :
    Except String ComponentState :=
  match s.slice, index with
  | .Single n, .Basic => .ok ⟨s.node, n⟩
  | .Single _, _ => .error "panic: indexing a single slice with an array index"
  | .Array _, .Basic => .error "panic: indexing an array slice with a basic index"
  | .Array n, i => .ok ⟨s.node, StateRef.from_name_and_index n i⟩

def ComponentRefArrayRelative.split_array_with_index
    (s : ComponentRefArrayRelative) (index : StateIndex) :
    ComponentRefRelative × StateVarSlice :=
  (s.refRel, .Single (StateRef.from_name_and_index s.arrayName index))

def ComponentInstancesSlice.collapse_instance (s : ComponentInstancesSlice)
    (inst : Inst) : ComponentStateSlice :=
  ⟨⟨s.comp, inst⟩, s.slice⟩

/-- The DependencySource of one dependency edge (lib.rs lines 1941-2009). -/
def get_source_for_dependency (core : DoenetCore) (dependency : Dependency)
    (essential_data : EssentialData) : Except String DependencySource :=
  match dependency with
  | .Essential component_name origin =>
      match (lookupD essential_data component_name).bind
          (fun m => lookupD m origin) with
      | none => .error "essential data not found for dependency source"
      | some data => .ok (.EssentialSrc data.get_type_as_str)
  | .StateVarArrayCorrespondingElement array_state_var => do
      let t ← component_ref_component_type core.component_nodes
        array_state_var.refRel.ref
      .ok (.StateVarSrc t array_state_var.arrayName)
  | .StateVar component_states => do
      let t ← group_member_component_type core.component_nodes
        component_states.groupRel.group
      .ok (.StateVarSrc t component_states.slice.name)
  | .UndeterminedChildren _ _ => .ok (.StateVarSrc "undetermined" "undetermined")
  | .MapSources map_sources state_var_slice => do
      let t ← group_member_component_type core.component_nodes
        (.Collection map_sources)
      .ok (.StateVarSrc t state_var_slice.name)
  | .StateVarArrayDynamicElement array_state_var _ => do
      let t ← component_ref_component_type core.component_nodes
        array_state_var.refRel.ref
      .ok (.StateVarSrc t array_state_var.arrayName)

/-- Modelled from the spec: prop_index_determine_value of base_definitions.rs,
reduced to reading the stored expression value. -/
def prop_index_determine_value (dependency_values : DependencyValuesMap) :
    Except String UpdateInstructionV :=
  match lookupD dependency_values PROP_INDEX_EXPR_INSTRUCTION with
  | some (dv :: _) =>
      match dv.value with
      | .mathExpr x => .ok (.SetValue (.number x))
      | v => .ok (.SetValue v)
  | _ => .error "propIndex could not be determined"

/-- Hand the gathered dependency values to the definition of the variable
(lib.rs lines 1799-1830).  An ArrayElement index of 0 underflows the
internal_id subtraction of the source and is a fatal error. -/
def generate_update_instruction_for_state_ref (core : DoenetCore)
    (component_state : ComponentState)
    (dependency_values : DependencyValuesMap) : Except String UpdateInstructionV :=
  if component_state.ref.name == PROP_INDEX_SV then
    prop_index_determine_value dependency_values
  else
    match lookupD core.component_nodes component_state.node.comp with
    | none => .error "component not found"
    | some node =>
        match lookupD node.definition.state_var_definitions
            component_state.ref.name with
        | none => .error "state var definition not found"
        | some state_var_def =>
            match component_state.ref with
            | .Basic _ =>
                state_var_def.determine_state_var_from_dependencies
                  dependency_values
            | .SizeOf _ =>
                state_var_def.determine_size_from_dependencies dependency_values
            | .ArrayElement _ id =>
                if id = 0 then .error "panic: array element index 0 underflows"
                else
                  state_var_def.determine_element_from_dependencies (id - 1)
                    dependency_values

/-- Apply an update instruction to the store and return the new value
(lib.rs lines 1833-1878). -/
def handle_update_instruction (component_state : ComponentState) (st : Store)
    (instruction : UpdateInstructionV) :
    Except String (Option StateVarValue × Store) :=
  let map := component_state.node.inst
  let state_var_ref := component_state.ref
  match st.get_state_var component_state.node.comp state_var_ref.name with
  | none => .error "state var not found in store"
  | some state_var =>
      match instruction with
      | .NoChange =>
          match state_var.get_single_state state_var_ref.index map with
          | .error e => .error e
          | .ok (some .Stale) =>
              .error "cannot use NoChange update instruction on a stale value"
          | .ok (some (.Resolved current_resolved_value)) =>
              .ok (some current_resolved_value, st)
          | .ok none => .ok (none, st)
      | .SetValue new_value =>
          match state_var.set_single_state state_var_ref.index new_value map with
          | .error e => .error e
          | .ok (updated_value, s2) =>
              .ok (updated_value,
                st.set_state_var component_state.node.comp state_var_ref.name s2)

end Doenet

namespace Doenet

def indices_for_size (size : Nat) : List Nat :=
  (List.range size).map (fun i => i + 1)

/-- The signature of the memoized resolver at a fixed remaining fuel.  The
helpers of the resolution engine receive the fuel-applied resolver as a
parameter; only resolve_state_variable itself recurses on fuel, so the whole
engine is structurally recursive and computable by the kernel. -/
abbrev Resolver :=
  Store → ComponentState → Except RunErr (Option StateVarValue × Store)

/-- Size of a batch via its declared size variable (lib.rs lines 2700-2712). -/
def resolve_batch_size (r : Resolver) (core : DoenetCore) (st : Store)
    (component_node_instance : ComponentNodeInstance)
    (batch_name : Option BatchName) : Except RunErr (Nat × Store) :=
  match lookupD core.component_nodes component_node_instance.comp with
  | none => .error (.fatal "component not found")
  | some node =>
      match node.definition.unwrap_batch_def batch_name with
      | .error e => .error (.fatal e)
      | .ok batch_def =>
          match r st ⟨component_node_instance, batch_def.size⟩ with
          | .error e => .error e
          | .ok (v, st1) =>
              match v with
              | none => .error (.fatal "batch size did not resolve")
              | some value =>
                  match value.toSize with
                  | none => .error (.fatal "batch size is not a usize")
                  | some n => .ok (n, st1)

mutual

/-- Total size of a collection (lib.rs lines 2714-2723).  The recursion
through InstanceBySources members is fueled (it diverges in the source on a
cyclic collection). -/
def collection_size (r : Resolver) (core : DoenetCore) :
    Nat → Store → ComponentNodeInstance → Except RunErr (Nat × Store)
  | 0, _, _ => .error .fuelOut
  | cfuel + 1, st, component_node_instance =>
      match lookupD core.group_dependencies component_node_instance.comp with
      | none => .error (.fatal "group dependencies not found")
      | some members =>
          collection_size_loop r core cfuel st
            component_node_instance.inst members 0

/-- Summation loop of collection_size. -/
def collection_size_loop (r : Resolver) (core : DoenetCore) :
    Nat → Store → Inst → List CollectionMembers → Nat →
    Except RunErr (Nat × Store)
  | 0, _, _, _, _ => .error .fuelOut
  | _cfuel + 1, st, _, [], acc => .ok (acc, st)
  | cfuel + 1, st, map, c :: rest, acc =>
      match collection_members_size r core cfuel st c map with
      | .error e => .error e
      | .ok (n, st1) => collection_size_loop r core cfuel st1 map rest (acc + n)

/-- Size contributed by one member descriptor (lib.rs lines 2725-2742). -/
def collection_members_size (r : Resolver) (core : DoenetCore) :
    Nat → Store → CollectionMembers → Inst → Except RunErr (Nat × Store)
  | 0, _, _, _ => .error .fuelOut
  | cfuel + 1, st, collection_members, map =>
      match collection_members with
      | .Component _ => .ok (1, st)
      | .Batch n => resolve_batch_size r core st ⟨n, map⟩ none
      | .ComponentOnCondition component_name condition =>
          match r st ⟨⟨component_name, map⟩, condition⟩ with
          | .error e => .error e
          | .ok (v, st1) =>
              .ok ((if v == some (StateVarValue.boolean true) then 1 else 0),
                st1)
      | .InstanceBySources sources _ =>
          collection_size r core cfuel st ⟨sources, map⟩

end

/-- First-fit walk over collection member descriptors
(the for loop of lib.rs lines 2784-2813). -/
def nth_collection_loop (r : Resolver) (core : DoenetCore) (cfuel : Nat) :
    Store → ComponentNodeInstance → List CollectionMembers → Nat →
    Except RunErr (Option ComponentRefInstance × Store)
  | st, _, [], _ => .ok (none, st)
  | st, cni, c :: rest, index =>
      let computed : Except RunErr ((Nat × ComponentRefInstance) × Store) :=
        match c with
        | .Component component_name =>
            .ok ((1, ⟨.Basic component_name, cni.inst⟩), st)
        | .Batch component_name =>
            match resolve_batch_size r core st ⟨component_name, cni.inst⟩
                none with
            | .error e => .error e
            | .ok (size, st1) =>
                .ok ((size,
                  ⟨.BatchMember component_name none index, cni.inst⟩), st1)
        | .ComponentOnCondition component_name condition =>
            match r st ⟨⟨component_name, cni.inst⟩, condition⟩ with
            | .error e => .error e
            | .ok (cond, st1) =>
                .ok (((if cond == some (StateVarValue.boolean true) then 1
                  else 0), ⟨.Basic component_name, cni.inst⟩), st1)
        | .InstanceBySources sources template =>
            match collection_size r core cfuel st ⟨sources, cni.inst⟩ with
            | .error e => .error e
            | .ok (size, st1) =>
                .ok ((size, ⟨.Basic template, cni.inst ++ [index]⟩), st1)
      match computed with
      | .error e => .error e
      | .ok (sg, st1) =>
          if index > sg.1 then
            nth_collection_loop r core cfuel st1 cni rest (index - sg.1)
          else .ok (some sg.2, st1)

/-- The nth overall member of a collection (lib.rs lines 2777-2815). -/
def nth_collection_member (r : Resolver) (core : DoenetCore) (cfuel : Nat)
    (st : Store) (component_node_instance : ComponentNodeInstance)
    (index : Nat) : Except RunErr (Option ComponentRefInstance × Store) :=
  match lookupD core.group_dependencies component_node_instance.comp with
  | none => .error (.fatal "group dependencies not found")
  | some members =>
      nth_collection_loop r core cfuel st component_node_instance members index

/-- Convert a collection member reference into the component it points to
(lib.rs lines 1444-1451). -/
def component_ref_apply_collection (r : Resolver) (core : DoenetCore)
    (cfuel : Nat) (st : Store) (self : ComponentRefInstance) :
    Except RunErr (Option ComponentRefInstance × Store) :=
  match self.ref with
  | .CollectionMember n i =>
      nth_collection_member r core cfuel st ⟨n, self.inst⟩ i
  | _ => .ok (some self, st)

/-- Convert a component reference with a slice to a concrete component name
with a slice (lib.rs lines 1415-1431). -/
def convert_component_ref_state_var (r : Resolver) (core : DoenetCore)
    (cfuel : Nat) (st : Store) (self : ComponentRefSlice) :
    Except RunErr (Option ComponentStateSlice × Store) :=
  match component_ref_apply_collection r core cfuel st self.refInst with
  | .error e => .error e
  | .ok (none, st1) => .ok (none, st1)
  | .ok (some cri, st1) =>
      match cri.ref with
      | .Basic n => .ok (some ⟨⟨n, cri.inst⟩, self.slice⟩, st1)
      | .BatchMember n c i =>
          match batch_state_var core ⟨n, self.slice⟩ c i with
          | .error e => .error (.fatal e)
          | .ok none => .ok (none, st1)
          | .ok (some sv) => .ok (some ⟨⟨n, cri.inst⟩, sv⟩, st1)
      | _ => .ok (none, st1)

mutual

/-- All concrete instances across the remaining sources
(lib.rs lines 2901-2918); fueled like the collection machinery. -/
def all_map_instances (r : Resolver) (core : DoenetCore) :
    Nat → Store → Inst → List ComponentName →
    Except RunErr (List Inst × Store)
  | 0, _, _, _ => .error .fuelOut
  | mfuel + 1, st, map, sources_remaining =>
      match sources_remaining with
      | [] => .ok ([map], st)
      | sources_name :: rest =>
          match collection_size r core (mfuel + 1) st ⟨sources_name, map⟩ with
          | .error e => .error e
          | .ok (size, st1) =>
              all_map_indices_loop r core mfuel st1 map rest
                (indices_for_size size) []

/-- Loop of all_map_instances over the member indices of one sources
collection (lib.rs lines 2912-2916). -/
def all_map_indices_loop (r : Resolver) (core : DoenetCore) :
    Nat → Store → Inst → List ComponentName → List Nat → List Inst →
    Except RunErr (List Inst × Store)
  | 0, _, _, _, _, _ => .error .fuelOut
  | _mfuel + 1, st, _, _, [], acc => .ok (acc, st)
  | mfuel + 1, st, map, rest, i :: more, acc =>
      match all_map_instances r core mfuel st (map ++ [i]) rest with
      | .error e => .error e
      | .ok (vec, st1) =>
          all_map_indices_loop r core mfuel st1 map rest more (acc ++ vec)

end

/-- Concrete group instances of a relative group (lib.rs lines 1479-1488). -/
def group_instance_relative_to (r : Resolver) (core : DoenetCore)
    (cfuel : Nat) (st : Store) (self : ComponentGroupRelative)
    (component_node_instance : ComponentNodeInstance) :
    Except RunErr (List ComponentGroupInstance × Store) :=
  let component_node_relative : ComponentNodeRelative :=
    ⟨self.group.name, self.rel⟩
  let gs := instance_relative_to_group_internal core.component_nodes
    component_node_instance component_node_relative
  match all_map_instances r core cfuel st gs.1 (gs.2.drop gs.1.length) with
  | .error e => .error e
  | .ok (instances, st1) =>
      .ok (instances.map (fun i => (⟨self.group, i⟩ : ComponentGroupInstance)),
        st1)

/-- The concrete member references of a group (lib.rs lines 1398-1413). -/
def component_group_members (r : Resolver) (core : DoenetCore) (cfuel : Nat)
    (st : Store) (self : ComponentGroupInstance) :
    Except RunErr (List ComponentRefInstance × Store) :=
  match self.group with
  | .Single comp_ref => .ok ([⟨comp_ref, self.inst⟩], st)
  | .Batch name =>
      match resolve_batch_size r core st ⟨name, self.inst⟩ none with
      | .error e => .error e
      | .ok (size, st1) =>
          .ok ((indices_for_size size).map (fun i =>
            (⟨.BatchMember name none i, self.inst⟩ : ComponentRefInstance)),
            st1)
  | .Collection name =>
      match collection_size r core cfuel st ⟨name, self.inst⟩ with
      | .error e => .error e
      | .ok (size, st1) =>
          .ok ((indices_for_size size).map (fun i =>
            (⟨.CollectionMember name i, self.inst⟩ : ComponentRefInstance)),
            st1)

/-- Loop resolving the elements of an array slice (lib.rs lines 1790-1793). -/
def resolve_slice_elements_loop (r : Resolver) :
    Store → ComponentStateSlice → List Nat → List (Option StateVarValue) →
    Except RunErr (List (Option StateVarValue) × Store)
  | st, _, [], acc => .ok (acc, st)
  | st, sv_slice, id :: rest, acc =>
      match sv_slice.index (.Element id) with
      | .error e => .error (.fatal e)
      | .ok element_variable =>
          match r st element_variable with
          | .error e => .error e
          | .ok (v, st1) =>
              resolve_slice_elements_loop r st1 sv_slice rest (acc ++ [v])

/-- Resolve a whole slice, size before elements for an array
(lib.rs lines 1774-1796). -/
def resolve_slice (r : Resolver) (st : Store) (sv_slice : ComponentStateSlice) :
    Except RunErr (List (Option StateVarValue) × Store) :=
  match sv_slice.slice with
  | .Single _ =>
      match sv_slice.index .Basic with
      | .error e => .error (.fatal e)
      | .ok component_state =>
          match r st component_state with
          | .error e => .error e
          | .ok (v, st1) => .ok ([v], st1)
  | .Array _ =>
      match sv_slice.index .SizeOf with
      | .error e => .error (.fatal e)
      | .ok size_variable =>
          match r st size_variable with
          | .error e => .error e
          | .ok (size_value_opt, st1) =>
              match size_value_opt with
              | none => .error (.fatal
                  "array size should always resolve to a StateVarValue")
              | some size_value =>
                  match size_value.toSize with
                  | none => .error (.fatal "array size is not a usize")
                  | some size =>
                      resolve_slice_elements_loop r st1 sv_slice
                        (indices_for_size size) []

/-- Values of one state variable slice as dependency values
(lib.rs lines 1880-1898). -/
def get_dependency_values_for_state_var_slice (r : Resolver)
    (core : DoenetCore) (st : Store) (sv_slice : ComponentStateSlice) :
    Except RunErr (List DependencyValue × Store) :=
  match lookupD core.component_nodes sv_slice.node.comp with
  | none => .error (.fatal "component not found")
  | some node =>
      let source := DependencySource.StateVarSrc
        node.definition.component_type sv_slice.slice.name
      match resolve_slice r st sv_slice with
      | .error e => .error e
      | .ok (values, st1) =>
          .ok (values.filterMap (fun v_opt =>
            v_opt.map (fun value => (⟨source, value⟩ : DependencyValue))), st1)

/-- Loop over the members of one group instance (lib.rs lines 1634-1642). -/
def statevar_members_loop (r : Resolver) (core : DoenetCore) (cfuel : Nat) :
    Store → StateVarSlice → List ComponentRefInstance →
    List DependencyValue → Except RunErr (List DependencyValue × Store)
  | st, _, [], acc => .ok (acc, st)
  | st, slice, component_ref_instance :: rest, acc =>
      match convert_component_ref_state_var r core cfuel st
          ⟨component_ref_instance, slice⟩ with
      | .error e => .error e
      | .ok (none, _) =>
          .error (.fatal "convert_component_ref_state_var returned none")
      | .ok (some sv_slice, st1) =>
          match get_dependency_values_for_state_var_slice r core st1
              sv_slice with
          | .error e => .error e
          | .ok (values, st2) =>
              statevar_members_loop r core cfuel st2 slice rest (acc ++ values)

/-- Loop over group instances of a StateVar edge (lib.rs lines 1633-1643). -/
def statevar_group_instances_loop (r : Resolver) (core : DoenetCore)
    (cfuel : Nat) :
    Store → StateVarSlice → List ComponentGroupInstance →
    List DependencyValue → Except RunErr (List DependencyValue × Store)
  | st, _, [], acc => .ok (acc, st)
  | st, slice, group_instance :: rest, acc =>
      match component_group_members r core cfuel st group_instance with
      | .error e => .error e
      | .ok (members, st1) =>
          match statevar_members_loop r core cfuel st1 slice members acc with
          | .error e => .error e
          | .ok (acc2, st2) =>
              statevar_group_instances_loop r core cfuel st2 slice rest acc2

/-- Gather the values contributed by one dependency edge
(the match of lib.rs lines 1627-1750). -/
def resolve_one_dep (r : Resolver) (core : DoenetCore) (cfuel : Nat)
    (st : Store) (state_variable : ComponentState) (dep : Dependency) :
    Except RunErr (List DependencyValue × Store) :=
  match get_source_for_dependency core dep st.essential_data with
  | .error e => .error (.fatal e)
  | .ok dependency_source =>
      match dep with
      | .StateVar component_states =>
          match group_instance_relative_to r core cfuel st
              component_states.groupRel state_variable.node with
          | .error e => .error e
          | .ok (group_instances, st1) =>
              statevar_group_instances_loop r core cfuel st1
                component_states.slice group_instances []
      | .UndeterminedChildren _ _ =>
          -- The children-resolution machinery of the source
          -- (lib.rs lines 1647-1672 and 2054-2097) is marked WIP there and
          -- no claim exercises it; it is not modelled.
          .error (.fatal "UndeterminedChildren resolution is not modelled")
      | .MapSources _ _ =>
          -- Map-sources resolution (lib.rs lines 1674-1688) is not modelled;
          -- no claim exercises maps.
          .error (.fatal "MapSources resolution is not modelled")
      | .StateVarArrayCorrespondingElement array_state_var =>
          let split := array_state_var.split_array_with_index
            state_variable.ref.index
          match split.1.instance_relative_to core.component_nodes
              state_variable.node with
          | .error e => .error (.fatal e)
          | .ok component_ref_instance =>
              match convert_component_ref_state_var r core cfuel st
                  ⟨component_ref_instance, split.2⟩ with
              | .error e => .error e
              | .ok (none, _) =>
                  .error (.fatal "convert_component_ref_state_var returned none")
              | .ok (some sv_slice, st1) =>
                  get_dependency_values_for_state_var_slice r core st1 sv_slice
      | .Essential component_name origin =>
          let component_node_relative : ComponentNodeRelative :=
            ⟨component_name, []⟩
          match component_node_relative.instance_relative_to
              core.component_nodes state_variable.node with
          | .error e => .error (.fatal e)
          | .ok dependency_map =>
              let index :=
                match origin with
                | .StateVar _ => state_variable.ref.index
                | _ => StateIndex.Basic
              match st.get_essential dependency_map.comp origin with
              | none => .error (.fatal "essential data not found")
              | some essential_var =>
                  match essential_var.get_value index dependency_map.inst with
                  | some value => .ok ([⟨dependency_source, value⟩], st)
                  | none => .ok ([], st)
      | .StateVarArrayDynamicElement array_state_var index_state_var =>
          let index_variable := state_variable.replace_state_var index_state_var
          match r st index_variable with
          | .error e => .error e
          | .ok (index_value, st1) =>
              let conv : Except RunErr (Option Nat) :=
                match index_value with
                | none => .ok none
                | some (.number x) => .ok (if x < 0 then none else some x.toNat)
                | some (.integer x) => .ok (if x < 0 then none else some x.toNat)
                | some _ => .error (.fatal "panic: propIndex value is not numeric")
              match conv with
              | .error e => .error e
              | .ok none => .ok ([], st1)
              | .ok (some index) =>
                  let split := array_state_var.split_array_with_index
                    (.Element index)
                  match split.1.instance_relative_to core.component_nodes
                      state_variable.node with
                  | .error e => .error (.fatal e)
                  | .ok component_ref_instance =>
                      match convert_component_ref_state_var r core cfuel st1
                          ⟨component_ref_instance, split.2⟩ with
                      | .error e => .error e
                      | .ok (none, _) =>
                          .error (.fatal
                            "convert_component_ref_state_var returned none")
                      | .ok (some slice_variable, st2) =>
                          get_dependency_values_for_state_var_slice r core
                            st2 slice_variable

/-- Iteration over the edges of one instruction
(the inner for loop of lib.rs lines 1624-1751). -/
def resolve_dep_list_loop (r : Resolver) (core : DoenetCore) (cfuel : Nat)
    (state_variable : ComponentState) :
    Store → List Dependency → List DependencyValue →
    Except RunErr (List DependencyValue × Store)
  | st, [], acc => .ok (acc, st)
  | st, dep :: rest, acc =>
      match resolve_one_dep r core cfuel st state_variable dep with
      | .error e => .error e
      | .ok (values, st1) =>
          resolve_dep_list_loop r core cfuel state_variable st1 rest
            (acc ++ values)

/-- Iteration over the instruction names of a state variable
(the outer for loop of lib.rs lines 1621-1754). -/
def resolve_deps_loop (r : Resolver) (core : DoenetCore) (cfuel : Nat)
    (state_variable : ComponentState) :
    Store → List (InstructionName × List Dependency) → DependencyValuesMap →
    Except RunErr (DependencyValuesMap × Store)
  | st, [], acc => .ok (acc, st)
  | st, (dep_name, deps) :: rest, acc =>
      match resolve_dep_list_loop r core cfuel state_variable st deps [] with
      | .error e => .error e
      | .ok (values_for_this_dep, st1) =>
          resolve_deps_loop r core cfuel state_variable st1 rest
            (acc ++ [(dep_name, values_for_this_dep)])

/-- Body of resolve_state_variable from the cache check on
(lib.rs lines 1600-1771): return a cached Resolved value, return none for a
non-existing element, otherwise gather dependency values, invoke the
derivation function (recorded as a trace event) and store the result. -/
def resolve_sv_inner (r : Resolver) (core : DoenetCore) (cfuel : Nat)
    (st : Store) (state_variable : ComponentState) :
    Except RunErr (Option StateVarValue × Store) :=
  match st.get_state_var state_variable.node.comp state_variable.ref.name with
  | none => .error (.fatal "component has no such state var")
  | some sv_state =>
      match sv_state.get_single_state state_variable.ref.index
          state_variable.node.inst with
      | .error e => .error (.fatal e)
      | .ok (some (.Resolved current_value)) => .ok (some current_value, st)
      | .ok none => .ok (none, st)
      | .ok (some .Stale) =>
          let my_dependencies := dependencies_of_state_var core.dependencies
            state_variable.ignore_instance
          match resolve_deps_loop r core cfuel state_variable st
              my_dependencies [] with
          | .error e => .error e
          | .ok (dependency_values, st1) =>
              let st2 := st1.push_event (.derive state_variable.node.comp
                state_variable.node.inst state_variable.ref)
              match generate_update_instruction_for_state_ref core
                  state_variable dependency_values with
              | .error e => .error (.fatal e)
              | .ok update_instruction =>
                  match handle_update_instruction state_variable st2
                      update_instruction with
                  | .error e => .error (.fatal e)
                  | .ok res => .ok res

/-- Demand-driven memoized resolution (lib.rs lines 1590-1772).  An array
element reference first resolves the SizeOf of its array (lines 1595-1598);
the value of that pre-resolution is discarded, but its state effects are kept
and a failure propagates, after which resolve_sv_inner performs the body of
the source function from line 1600 on. -/
def resolve_state_variable : Nat → DoenetCore → Store → ComponentState →
    Except RunErr (Option StateVarValue × Store)
  | 0, _, _, _ => .error .fuelOut
  | fuel + 1, core, st, state_variable =>
      match state_variable.ref with
      | .ArrayElement _ _ =>
          match resolve_state_variable fuel core st
              (state_variable.new_index .SizeOf) with
          | .error e => .error e
          | .ok (_, st1) =>
              resolve_sv_inner
                (fun st2 cs => resolve_state_variable fuel core st2 cs)
                core fuel st1 state_variable
      | _ =>
          resolve_sv_inner
            (fun st2 cs => resolve_state_variable fuel core st2 cs)
            core fuel st state_variable


end Doenet

namespace Doenet

/-- The memoized resolver at a given fuel, as passed to the helpers. -/
def resolverOf (fuel : Nat) (core : DoenetCore) : Resolver :=
  fun st cs => resolve_state_variable fuel core st cs

/-! ## Invalidation engine (lib.rs lines 2104-2327) -/

/-- Whether a group can include the component, without resolving anything
(the local group_includes_component of lib.rs lines 2295-2309). -/
def group_includes_component
    (group_dependencies : List (ComponentName × List CollectionMembers))
    (group : ComponentGroup) (component : ComponentName) : Except String Bool :=
  match group with
  | .Single (.Basic n) => .ok (n == component)
  | .Batch n => .ok (n == component)
  | .Single (.BatchMember n _ _) => .ok (n == component)
  | .Single (.CollectionMember n _) =>
      match lookupD group_dependencies n with
      | none => .error "group dependencies not found"
      | some gd => .ok (collection_may_contain gd component)
  | .Collection n =>
      match lookupD group_dependencies n with
      | none => .error "group dependencies not found"
      | some gd => .ok (collection_may_contain gd component)

/-- The chain.find of the UndeterminedChildren invalidation branch
(lib.rs lines 2223-2227): first chain entry whose definition does not
replace itself with its children. -/
def find_first_non_children
    (component_nodes : List (ComponentName × ComponentNode)) :
    List ComponentName → Except String (Option ComponentName)
  | [] => .ok none
  | p :: rest =>
      match lookupD component_nodes p with
      | none => .error "component not found"
      | some node =>
          match node.definition.replacement_components with
          | some .Children => find_first_non_children component_nodes rest
          | _ => .ok (some p)

/-- Every dependency-graph key whose edges depend on the given slice
(lib.rs lines 2166-2327). -/
def get_state_variables_depending_on_me (core : DoenetCore)
    (component_states : ComponentStateSlice) :
    Except String (List ComponentInstancesSlice) := do
  let sv_component := component_states.node.comp
  let sv_slice := component_states.slice
  core.dependencies.foldlM (fun acc kd => do
    let dependency_key := kd.1
    kd.2.foldlM (fun (acc2 : List ComponentInstancesSlice) dependency => do
      match dependency with
      | .StateVar component_group_states => do
          let slice_depends ←
            match component_group_states.groupRel.group with
            | .Single (.BatchMember n b i) => do
                match ← batch_state_var core ⟨n, component_group_states.slice⟩
                    b i with
                | none => Except.error "batch_state_var returned none"
                | some state_var_slice =>
                    pure (slice_depends_on_slice state_var_slice sv_slice)
            | .Batch n => do
                let slices ← [1, 2, 3].foldlM
                  (fun (l : List StateVarSlice) i => do
                    match ← batch_state_var core
                        ⟨n, component_group_states.slice⟩ none i with
                    | some s => pure (l ++ [s])
                    | none => pure l) []
                pure (slices.any (fun s => slice_depends_on_slice s sv_slice))
            | _ => pure (slice_depends_on_slice component_group_states.slice
                sv_slice)
          let includes ← group_includes_component core.group_dependencies
            component_group_states.groupRel.group sv_component
          if includes && slice_depends then
            let instance_group := instance_relative_to_group core
              component_states.node
              ⟨dependency_key.slice.comp, component_group_states.groupRel.rel⟩
            pure (acc2 ++ [⟨dependency_key.slice.comp, instance_group,
              dependency_key.slice.slice⟩])
          else pure acc2
      | .UndeterminedChildren component_name desired_profiles => do
          match lookupD core.component_nodes sv_component with
          | none => Except.error "component not found"
          | some sv_node => do
              let depends ←
                match lookupD core.group_dependencies component_name with
                | none => Except.error "group dependencies not found"
                | some gd =>
                    if collection_may_contain gd sv_component then pure true
                    else if (sv_node.definition.component_profile_match
                        desired_profiles).isSome then do
                      let chain := parent_chain core.component_nodes
                        component_name
                      let parent ← find_first_non_children core.component_nodes
                        chain
                      pure (parent == some component_name)
                    else pure false
              if depends then
                let instance_group := instance_relative_to_group core
                  component_states.node ⟨dependency_key.slice.comp, []⟩
                pure (acc2 ++ [⟨dependency_key.slice.comp, instance_group,
                  dependency_key.slice.slice⟩])
              else pure acc2
      | .MapSources map_sources state_var_slice =>
          if sv_component == map_sources &&
             slice_depends_on_slice state_var_slice sv_slice then
            let instance_group := instance_relative_to_group core
              component_states.node ⟨dependency_key.slice.comp, []⟩
            pure (acc2 ++ [⟨dependency_key.slice.comp, instance_group,
              dependency_key.slice.slice⟩])
          else pure acc2
      | .StateVarArrayCorrespondingElement array_state_var => do
          let includes ← group_includes_component core.group_dependencies
            (.Single array_state_var.refRel.ref) sv_component
          if includes && array_state_var.arrayName == sv_slice.name then
            let instance_group := instance_relative_to_group core
              component_states.node ⟨dependency_key.slice.comp, []⟩
            pure (acc2 ++ [⟨dependency_key.slice.comp, instance_group,
              sv_slice⟩])
          else pure acc2
      | .StateVarArrayDynamicElement array_state_var _ => do
          let includes ← group_includes_component core.group_dependencies
            (.Single array_state_var.refRel.ref) sv_component
          let this_array_refers_to_me :=
            includes && array_state_var.arrayName == sv_slice.name
          let i_am_prop_index_of_this_dependency :=
            dependency_key.component_name == sv_component &&
            sv_slice == StateVarSlice.Single (.Basic "propIndex")
          if this_array_refers_to_me || i_am_prop_index_of_this_dependency then
            let instance_group := instance_relative_to_group core
              component_states.node ⟨dependency_key.slice.comp, []⟩
            pure (acc2 ++ [⟨dependency_key.slice.comp, instance_group,
              dependency_key.slice.slice⟩])
          else pure acc2
      | .Essential _ _ => pure acc2) acc) []

mutual

/-- Mark a slice stale at every resolved instance and recurse into everything
depending on it (lib.rs lines 2104-2128).  The recursion through dependents
(unbounded in the source only on a cyclic graph) is fueled; every step of the
engine consumes one unit. -/
def mark_stale_state_var_and_dependencies (core : DoenetCore) :
    Nat → Store → ComponentInstancesSlice → Except RunErr Store
  | 0, _, _ => .error .fuelOut
  | fuel + 1, st, component_states =>
      match st.get_state_var component_states.comp
          component_states.slice.name with
      | none => .error (.fatal "state var not found")
      | some state =>
          let instances := state.instances_where_slice_is_resolved
            component_states.slice component_states.instGroup
          mark_stale_instances_loop core fuel st component_states instances

/-- Loop of mark_stale_state_var_and_dependencies over the resolved
instances. -/
def mark_stale_instances_loop (core : DoenetCore) :
    Nat → Store → ComponentInstancesSlice → List Inst → Except RunErr Store
  | 0, _, _, _ => .error .fuelOut
  | _fuel + 1, st, _, [] => .ok st
  | fuel + 1, st, component_states, inst :: rest =>
      match st.get_state_var component_states.comp
          component_states.slice.name with
      | none => .error (.fatal "state var not found")
      | some s2 =>
          let s3 := s2.mark_stale_slice component_states.slice inst
          let st3 := st.set_state_var component_states.comp
            component_states.slice.name s3
          let component_state_slice := component_states.collapse_instance inst
          match get_state_variables_depending_on_me core
              component_state_slice with
          | .error e => .error (.fatal e)
          | .ok depending_on_me =>
              match mark_stale_deps_loop core fuel st3 depending_on_me with
              | .error e => .error e
              | .ok st4 =>
                  mark_stale_instances_loop core fuel st4 component_states rest

/-- Loop of mark_stale_state_var_and_dependencies over the dependent keys. -/
def mark_stale_deps_loop (core : DoenetCore) :
    Nat → Store → List ComponentInstancesSlice → Except RunErr Store
  | 0, _, _ => .error .fuelOut
  | _fuel + 1, st, [] => .ok st
  | fuel + 1, st, cis :: rest =>
      match mark_stale_state_var_and_dependencies core fuel st cis with
      | .error e => .error e
      | .ok st1 => mark_stale_deps_loop core fuel st1 rest

end

/-- Invalidation after a write to an essential datum
(lib.rs lines 2130-2163): every key holding an edge to this datum is marked,
with Array key slices specialized to the written index, then the transitive
pass runs. -/
def mark_stale_essential_datum_dependencies (fuel : Nat) (core : DoenetCore)
    (st : Store) (essential_state : EssentialState) : Except RunErr Store :=
  let component_name := essential_state.node.comp
  let map := essential_state.node.inst
  let origin := essential_state.origin
  let state_index := essential_state.index
  let search_dep := Dependency.Essential component_name origin
  let my_dependencies := core.dependencies.filterMap (fun kd =>
    if kd.2.contains search_dep then
      let state_ref_option :=
        match kd.1.slice.slice with
        | .Single s => some s
        | .Array _ => kd.1.slice.slice.specify_index state_index
      state_ref_option.map (fun state_var_ref =>
        (⟨kd.1.slice.comp, map, .Single state_var_ref⟩ : ComponentInstancesSlice))
    else none)
  my_dependencies.foldlM (fun st2 cis =>
    mark_stale_state_var_and_dependencies core fuel st2 cis) st

/-! ## Action and update engine (lib.rs lines 2504-2693 and 3095-3174) -/

inductive UpdateRequest
  | SetEssentialValue (es : EssentialState) (v : StateVarValue)
  | SetStateVar (cs : ComponentState) (v : StateVarValue)
deriving DecidableEq, Repr

structure Action where
  component_name : ComponentName
  action_name : String
  args : List (String × StateVarValue)

/-- Also includes the values of essential data (lib.rs lines 2012-2046).
Note that the source reads the essential store under the DEPENDENT
component name, not under the component named in the Essential edge. -/
def get_dependency_sources_for_state_var (core : DoenetCore) (st : Store)
    (component_state : ComponentState) :
    Except String (List (InstructionName ×
      List (DependencySource × Option StateVarValue))) :=
  let component_name := component_state.node.comp
  let map := component_state.node.inst
  let state_ref := component_state.ref
  let my_dependencies := dependencies_of_state_var core.dependencies
    component_state.ignore_instance
  my_dependencies.mapM (fun kv => do
    let instruction_sources ← kv.2.mapM (fun dependency => do
      let source ← get_source_for_dependency core dependency st.essential_data
      let essential_value ←
        match dependency with
        | Dependency.Essential _ origin =>
            match st.get_essential component_name origin with
            | none => Except.error "essential data not found"
            | some data =>
                match data.get_value state_ref.index map with
                | none => Except.error "essential value not found"
                | some value => pure (some value)
        | _ => pure none
      pure (source, essential_value))
    pure (kv.1, instruction_sources))

/-- Detect if a state var is shadowing because of a CopySource
(lib.rs lines 3140-3174). -/
def state_var_is_shadowing (core : DoenetCore)
    (component_state : ComponentStateAllInstances) :
    Except String (Option ComponentRefSliceRelative) :=
  match lookupD core.component_nodes component_state.comp with
  | none => .error "component not found"
  | some component =>
      match component.copy_source with
      | some (.StateVar component_relative) =>
          match component.definition.primary_input_state_var with
          | some primary_input_state_var =>
              if component_state.ref = .Basic primary_input_state_var then
                .ok (some ⟨component_relative.refRel,
                  .Single component_relative.ref⟩)
              else .ok none
          | none =>
              .error "component type does not have a primary input state var"
      | some (.DynamicElement source_comp source_state_var _ _) =>
          match component.definition.primary_input_state_var with
          | some primary_input_state_var =>
              if component_state.ref = .Basic primary_input_state_var then
                .ok (some ⟨⟨.Basic source_comp, []⟩, .Array source_state_var⟩)
              else .ok none
          | none =>
              .error "component type does not have a primary input state var"
      | _ => .ok none

def group_index_increment (group_index : Option ComponentName × Nat)
    (n : ComponentName) : Option ComponentName × Nat :=
  if group_index.1 = some n then (some n, group_index.2 + 1) else (some n, 1)

/-- Zip of one instruction's inverse-request values with its compiled edges
(lib.rs lines 2606-2642): essential requests write the essential datum at
the index of the written reference, state-var requests replay group indexing
positionally. -/
def convert_zip_loop (fuel : Nat) (core : DoenetCore) (st : Store)
    (component_state : ComponentState) :
    List (DependencyValue × Dependency) → (Option ComponentName × Nat) →
    List UpdateRequest → Except RunErr (List UpdateRequest × Store)
  | [], _, acc => .ok (acc, st)
  | (request, dependency) :: rest, group_index, acc =>
      match dependency with
      | .Essential component_name origin =>
          let component_node_instance : ComponentNodeInstance :=
            ⟨component_name, component_state.node.inst⟩
          convert_zip_loop fuel core st component_state rest group_index
            (acc ++ [.SetEssentialValue
              ⟨component_node_instance, origin, component_state.ref.index⟩
              request.value])
      | .StateVar component_states =>
          let gic :=
            match component_states.groupRel.group with
            | .Batch n =>
                let gi := group_index_increment group_index n
                (gi, ComponentRef.BatchMember n none (gi.2 - 1))
            | .Collection n =>
                let gi := group_index_increment group_index n
                (gi, ComponentRef.CollectionMember n (gi.2 - 1))
            | .Single comp_ref => (group_index, comp_ref)
          match convert_component_ref_state_var (resolverOf fuel core) core
              fuel st ⟨⟨gic.2, component_state.node.inst⟩,
               component_states.slice⟩ with
          | .error e => .error e
          | .ok (opt, st1) =>
              let acc2 :=
                match opt with
                | some sv_slice =>
                    match sv_slice.slice with
                    | .Single state_var_ref =>
                        acc ++ [.SetStateVar ⟨sv_slice.node, state_var_ref⟩
                          request.value]
                    | .Array _ => acc
                | none => acc
              convert_zip_loop fuel core st1 component_state rest gic.1 acc2
      | _ => convert_zip_loop fuel core st component_state rest group_index acc

/-- Loop over the instruction names of the inverse result
(lib.rs lines 2578-2644).  On a failed instruction the source executes
`break`, leaving the loop entirely: the failing instruction AND every
not-yet-processed instruction are dropped, while requests already
accumulated are kept. -/
def convert_requests_loop (fuel : Nat) (core : DoenetCore) (st : Store)
    (component_state : ComponentState)
    (my_dependencies : List (InstructionName × List Dependency)) :
    List (InstructionName × Except String (List DependencyValue)) →
    List UpdateRequest → Except RunErr (List UpdateRequest × Store)
  | [], acc => .ok (acc, st)
  | (instruction_name, instruction_requests) :: rest, acc =>
      match instruction_requests with
      | .error _e => .ok (acc, st)
      | .ok valid_requests =>
          match lookupD my_dependencies instruction_name with
          | none =>
              .error (.fatal "wrong instruction name to determine dependencies")
          | some instruct_dependencies =>
              if valid_requests.length ≠ instruct_dependencies.length then
                .error (.fatal
                  "assertion failed: requests and dependencies differ in length")
              else
                match convert_zip_loop fuel core st component_state
                    (valid_requests.zip instruct_dependencies) (none, 0) [] with
                | .error e => .error e
                | .ok (new_reqs, st2) =>
                    convert_requests_loop fuel core st2 component_state
                      my_dependencies rest (acc ++ new_reqs)

/-- Convert the results of request_dependencies_to_update_value into
UpdateRequest values (lib.rs lines 2564-2648). -/
def convert_dependency_values_to_update_request (fuel : Nat)
    (core : DoenetCore) (st : Store) (component_state : ComponentState)
    (requests : List (InstructionName × Except String (List DependencyValue))) :
    Except RunErr (List UpdateRequest × Store) :=
  match lookupD core.component_nodes component_state.node.comp with
  | none => .error (.fatal "component not found")
  | some _component =>
      let my_dependencies := dependencies_of_state_var core.dependencies
        component_state.ignore_instance
      convert_requests_loop fuel core st component_state my_dependencies
        requests []

/-- Turn one requested write into concrete update requests, redirecting
through shadowing copy sources (lib.rs lines 3095-3136). -/
def request_dependencies_to_update_value_including_shadow (fuel : Nat)
    (core : DoenetCore) (st : Store) (component_state : ComponentState)
    (new_value : StateVarValue) :
    Except RunErr (List UpdateRequest × Store) :=
  match lookupD core.component_nodes component_state.node.comp with
  | none => .error (.fatal "component not found")
  | some component =>
      match state_var_is_shadowing core component_state.ignore_instance with
      | .error e => .error (.fatal e)
      | .ok (some component_ref_slice_relative) =>
          let inst1 := component_state.node.inst
          match convert_component_ref_state_var (resolverOf fuel core) core
              fuel st ⟨⟨component_ref_slice_relative.refRel.ref, inst1⟩,
               component_ref_slice_relative.slice⟩ with
          | .error e => .error e
          | .ok (none, _) => .error (.fatal "no source state")
          | .ok (some source_state, st1) =>
              match source_state.slice with
              | .Single r =>
                  .ok ([.SetStateVar ⟨source_state.node, r⟩ new_value], st1)
              | .Array _ => .error (.fatal "panic: array")
      | .ok none =>
          match get_dependency_sources_for_state_var core st component_state with
          | .error e => .error (.fatal e)
          | .ok dependency_sources =>
              match lookupD component.definition.state_var_definitions
                  component_state.ref.name with
              | none => .error (.fatal "state var definition not found")
              | some sv_def =>
                  match sv_def.request_dependencies_to_update_value
                      component_state.ref new_value dependency_sources with
                  | .error e => .error (.fatal e)
                  | .ok requests =>
                      convert_dependency_values_to_update_request fuel core st
                        component_state requests

mutual

/-- Apply one update request (lib.rs lines 2650-2693): an essential write
sets the store and invalidates, a state-var write recurses through the
inverse definitions.  The recursion through produced requests (unbounded in
the source only on a cyclic inverse chain) is fueled. -/
def process_update_request (core : DoenetCore) :
    Nat → Store → UpdateRequest → Except RunErr Store
  | 0, _, _ => .error .fuelOut
  | fuel + 1, st, update_request =>
      match update_request with
      | .SetEssentialValue essential_state requested_value =>
          match st.get_essential essential_state.node.comp
              essential_state.origin with
          | none => .error (.fatal "essential data not found")
          | some essential_var =>
              match essential_var.set_value essential_state.index
                  requested_value essential_state.node.inst with
              | .error e => .error (.fatal e)
              | .ok e2 =>
                  let st1 := st.set_essential essential_state.node.comp
                    essential_state.origin e2
                  mark_stale_essential_datum_dependencies fuel core st1
                    essential_state
      | .SetStateVar component_state requested_value =>
          match request_dependencies_to_update_value_including_shadow fuel
              core st component_state requested_value with
          | .error e => .error e
          | .ok (dep_update_requests, st1) =>
              process_requests_loop core fuel st1 dep_update_requests

/-- Loop applying the produced update requests in order. -/
def process_requests_loop (core : DoenetCore) :
    Nat → Store → List UpdateRequest → Except RunErr Store
  | 0, _, _ => .error .fuelOut
  | _fuel + 1, st, [] => .ok st
  | fuel + 1, st, r :: rest =>
      match process_update_request core fuel st r with
      | .error e => .error e
      | .ok st1 => process_requests_loop core fuel st1 rest

end

/-- Modelled from the spec: dealias of lib.rs lines 1567-1583 for plain
component names; the bracketed map-instance alias syntax is not modelled
(no claim uses map instances in an action). -/
def ComponentNodeInstance.dealias (alias1 : String) : ComponentNodeInstance :=
  ⟨alias1, []⟩

/-- Dispatch an external action (lib.rs lines 2531-2559).  The resolver
callback handed to on_action in the source is omitted: the only modelled
action, movePoint of point.rs, ignores it. -/
def handle_action (fuel : Nat) (core : DoenetCore) (st : Store)
    (action : Action) : Except RunErr Store :=
  let component_node_instance := ComponentNodeInstance.dealias
    action.component_name
  match lookupD core.component_nodes component_node_instance.comp with
  | none => .error (.fatal "action component does not exist")
  | some component =>
      match component.definition.on_action action.action_name action.args with
      | .error e => .error (.fatal e)
      | .ok state_vars_to_update =>
          state_vars_to_update.foldlM (fun st2 pair =>
            process_update_request core fuel st2
              (.SetStateVar ⟨component_node_instance, pair.1⟩ pair.2)) st

end Doenet

namespace Doenet

/-! ## Concrete cores used by the claims

Component definitions are data of the model (the catalogue is an open,
pluggable extension point per the specification); the state variable
definitions below spell out the dependency instructions and derivation
functions that each claim scenario needs. -/

/-- Array state variable backed by one essential datum: size is the constant
2, the whole-array instruction set asks for essential data, elements read the
essential value at their own index. -/
def xsDef : StateVarDefData where
  kind := .NumberArrayK
  initial_essential_value := .number 0
  return_size_dependency_instructions := []
  determine_size_from_dependencies := fun _ => .ok (.SetValue (.integer 2))
  return_array_dependency_instructions := [("essen", .Essential none)]
  determine_element_from_dependencies := fun _ dv =>
    match lookupD dv "essen" with
    | some (v :: _) => .ok (.SetValue v.value)
    | _ => .error "no essential value for element"

/-- Single state variable depending on element 2 of the xs array of
component A. -/
def vDef : StateVarDefData where
  kind := .NumberK
  initial_essential_value := .number 0
  return_dependency_instructions :=
    [("d", .StateVar (some (.Basic "A")) (.Single (.ArrayElement "xs" 2)))]
  determine_state_var_from_dependencies := fun dv =>
    match lookupD dv "d" with
    | some (v :: _) => .ok (.SetValue v.value)
    | _ => .error "no dependency value"

def nodeA : ComponentNode where
  name := "A"
  definition :=
    { component_type := "arrayHolder"
      state_var_definitions := [("xs", xsDef)] }

def nodeB : ComponentNode where
  name := "B"
  definition :=
    { component_type := "elementUser"
      state_var_definitions := [("v", vDef)] }

/-- Essential snapshot seeding the xs datum of A with values 3 and 4. -/
def c1Snapshot : EssentialData :=
  [("A", [(.StateVar "xs",
    .array [.number 3, .number 4] (.number 0) [])])]

def c1Built : Except RunErr (Except DoenetMLError (DoenetCore × Store)) :=
  create_doenet_core [("A", nodeA), ("B", nodeB)] [] "A" (some c1Snapshot)

def emptyCore : DoenetCore :=
  { component_nodes := [], root_component_name := "", dependencies := []
    group_dependencies := [] }

def emptyStore : Store :=
  { component_states := [], essential_data := [], trace := [] }

def c1Core : DoenetCore :=
  match c1Built with
  | .ok (.ok (core, _)) => core
  | _ => emptyCore

def c1Store0 : Store :=
  match c1Built with
  | .ok (.ok (_, st)) => st
  | _ => emptyStore

/-- Convenience projection: the value produced by a resolution. -/
def resolveValue (fuel : Nat) (core : DoenetCore) (st : Store)
    (cs : ComponentState) : Option StateVarValue :=
  match resolve_state_variable fuel core st cs with
  | .ok (v, _) => v
  | _ => none

/-- Convenience projection: the store after a resolution. -/
def resolveStore (fuel : Nat) (core : DoenetCore) (st : Store)
    (cs : ComponentState) : Store :=
  match resolve_state_variable fuel core st cs with
  | .ok (_, st1) => st1
  | _ => st

def Bv : ComponentState := ⟨⟨"B", []⟩, .Basic "v"⟩

def Axs1 : ComponentState := ⟨⟨"A", []⟩, .ArrayElement "xs" 1⟩

def Axs2 : ComponentState := ⟨⟨"A", []⟩, .ArrayElement "xs" 2⟩

/-- Store of the C1 scenario after resolving B.v and A.xs element 1. -/
def c1Store1 : Store :=
  resolveStore 40 c1Core (resolveStore 40 c1Core c1Store0 Bv) Axs1

/-- Store of the C1 scenario after writing 99 into index 1 of the essential
datum behind the xs array of A (the write marks stale transitively). -/
def c1Store2 : Except RunErr Store :=
  process_update_request c1Core 40 c1Store1
    (.SetEssentialValue ⟨⟨"A", []⟩, .StateVar "xs", .Element 1⟩ (.number 99))

/-- Read the cache state of one single state variable. -/
def stateOf (st : Store) (c : ComponentName) (sv : StateVarName)
    (index : StateIndex) : Option StateV :=
  match st.get_state_var c sv with
  | some s =>
      match s.get_single_state index [] with
      | .ok r => r
      | .error _ => none
  | none => none

end Doenet

namespace Doenet

/-! ## Concrete core for the point scenario (component/point.rs) -/

/-- Modelled from the spec: the state variable produced by
number_array_definition_from_attribute ("coords", 0.0, true, 2) of
base_definitions.rs (point.rs line 19).  Size and elements each depend on the
attribute (one Attribute instruction per set, lib.rs lines 1212-1333 compiles
them into Essential edges seeded from the attribute); the inverse requests an
essential write of the new value. -/
def coordsDef : StateVarDefData where
  kind := .NumberArrayK
  initial_essential_value := .number 0
  return_size_dependency_instructions :=
    [("attribute", .Attribute "coords" .SizeOf)]
  determine_size_from_dependencies := fun dv =>
    match lookupD dv "attribute" with
    | some (v :: _) =>
        match v.value with
        | .integer n => .ok (.SetValue (.integer n))
        | _ => .error "attribute size is not an integer"
    | _ => .error "no attribute size value"
  return_element_dependency_instructions := fun index =>
    [("attribute", .Attribute "coords" (.Element index))]
  determine_element_from_dependencies := fun _ dv =>
    match lookupD dv "attribute" with
    | some (v :: _) =>
        match v.value with
        | .mathExpr x => .ok (.SetValue (.number x))
        | .number x => .ok (.SetValue (.number x))
        | _ => .error "attribute value is not numeric"
    | _ => .error "no attribute element value"
  request_dependencies_to_update_value := fun _ new_value _ =>
    .ok [("attribute", .ok [⟨.EssentialSrc "mathExpr", new_value⟩])]

/-- The numericalXs array of point.rs lines 21-59: elements are read out of
the whole coords array (determine_element indexes the gathered number list
with the internal zero-based index and unwraps), the size copies the size of
coords. -/
def numericalXsDef : StateVarDefData where
  kind := .NumberArrayK
  initial_essential_value := .number 0
  return_array_dependency_instructions :=
    [("coords", .StateVar none (.Array "coords"))]
  determine_element_from_dependencies := fun index dv =>
    match lookupD dv "coords" with
    | none => .error "no dep value named coords"
    | some vs => do
        let coords ← vs.mapM (fun v =>
          match v.value with
          | .number x => Except.ok x
          | _ => Except.error "dependency value is not a number")
        match coords.get? index with
        | some my_coord => Except.ok (.SetValue (.number my_coord))
        | none => Except.error "panic: unwrap of missing coordinate"
  return_size_dependency_instructions :=
    [("dimensions", .StateVar none (.Single (.SizeOf "coords")))]
  determine_size_from_dependencies := fun dv =>
    match lookupD dv "dimensions" with
    | none => .error "no dep value named dimensions"
    | some [v] =>
        match v.value with
        | .integer d => .ok (.SetValue (.integer d))
        | _ => .error "dimensions value is not an integer"
    | some _ => .error "expected exactly one element"

/-- The latex string of point.rs lines 61-84.  Both coordinates are read from
index 0 of the gathered list, exactly as in the source (lines 77-78). -/
def latexDef : StateVarDefData where
  kind := .StringK
  initial_essential_value := .str ""
  return_dependency_instructions :=
    [("coords", .StateVar none (.Array "coords"))]
  determine_state_var_from_dependencies := fun dv =>
    match lookupD dv "coords" with
    | none => .error "no dep value named coords"
    | some vs => do
        let coords ← vs.mapM (fun v =>
          match v.value with
          | .number x => Except.ok x
          | _ => Except.error "dependency value is not a number")
        match coords.get? 0, coords.get? 0 with
        | some x, some y =>
            Except.ok (.SetValue (.str
              ("(" ++ toString x ++ ", " ++ toString y ++ ")")))
        | _, _ => Except.error "panic: unwrap of missing coordinate"

/-- The point component definition (point.rs lines 143-194); only the state
variables that a claim reads are carried.  on_action for movePoint writes
coords elements 0 and 1 (point.rs lines 172-175), although element indices
are 1-based everywhere else in the engine. -/
def pointDef : ComponentDefinition where
  component_type := "point"
  state_var_definitions :=
    [("coords", coordsDef), ("numericalXs", numericalXsDef),
     ("latex", latexDef)]
  on_action := fun action_name args =>
    match action_name with
    | "movePoint" =>
        match lookupD args "x", lookupD args "y" with
        | some x, some y =>
            .ok [(.ArrayElement "coords" 0, x), (.ArrayElement "coords" 1, y)]
        | none, _ => .error "No x argument"
        | _, none => .error "No y argument"
    | "switchPoint" => .ok []
    | "pointClicked" => .ok []
    | _ => .error "Unknown action called on point"

def pointNode : ComponentNode where
  name := "p1"
  definition := pointDef

/-- The point core of the end-to-end scenario, with attribute
coords mapping index 1 to the string 3 and index 2 to the string 4. -/
def c2Built : Except RunErr (Except DoenetMLError (DoenetCore × Store)) :=
  create_doenet_core [("p1", pointNode)]
    [("p1", [("coords", [(1, [.String "3"]), (2, [.String "4"])])])] "p1" none

def c2Core : DoenetCore :=
  match c2Built with
  | .ok (.ok (core, _)) => core
  | _ => emptyCore

def c2Store0 : Store :=
  match c2Built with
  | .ok (.ok (_, st)) => st
  | _ => emptyStore

def c2nx1 : ComponentState := ⟨⟨"p1", []⟩, .ArrayElement "numericalXs" 1⟩

def c2nx2 : ComponentState := ⟨⟨"p1", []⟩, .ArrayElement "numericalXs" 2⟩

def moveAction : Action :=
  ⟨"p1", "movePoint", [("x", .number 5), ("y", .number 6)]⟩

/-! ## Concrete core for the failing-inverse scenario -/

/-- A scalar backed by one essential datum. -/
def tDef : StateVarDefData where
  kind := .NumberK
  initial_essential_value := .number 0
  return_dependency_instructions := [("e", .Essential none)]
  determine_state_var_from_dependencies := fun dv =>
    match lookupD dv "e" with
    | some (v :: _) => .ok (.SetValue v.value)
    | _ => .error "no dependency value"

/-- A scalar with two instructions: i1 reads the derived variable t (its
inverse always fails), i2 is essential (its inverse succeeds). -/
def uDef : StateVarDefData where
  kind := .NumberK
  initial_essential_value := .number 0
  return_dependency_instructions :=
    [("i1", .StateVar none (.Single (.Basic "t"))), ("i2", .Essential none)]
  determine_state_var_from_dependencies := fun dv =>
    match lookupD dv "i2" with
    | some (v :: _) => .ok (.SetValue v.value)
    | _ => .error "no dependency value"
  request_dependencies_to_update_value := fun _ new_value _ =>
    .ok [("i1", .error "cannot invert a derived value"),
         ("i2", .ok [⟨.EssentialSrc "number", new_value⟩])]

def node4D : ComponentNode where
  name := "D"
  definition := { component_type := "twoInstr"
                  state_var_definitions := [("t", tDef), ("u", uDef)] }

def c4Built : Except RunErr (Except DoenetMLError (DoenetCore × Store)) :=
  create_doenet_core [("D", node4D)] [] "D" none

def c4Core : DoenetCore :=
  match c4Built with
  | .ok (.ok (core, _)) => core
  | _ => emptyCore

def c4Store0 : Store :=
  match c4Built with
  | .ok (.ok (_, st)) => st
  | _ => emptyStore

def c4u : ComponentState := ⟨⟨"D", []⟩, .Basic "u"⟩

/-! ## Concrete core with a runtime cycle through the implicit
element-to-size pre-resolution -/

/-- An array whose size depends on the scalar w and whose elements read
essential data. -/
def arrDef : StateVarDefData where
  kind := .NumberArrayK
  initial_essential_value := .number 0
  return_size_dependency_instructions :=
    [("w", .StateVar none (.Single (.Basic "w")))]
  determine_size_from_dependencies := fun dv =>
    match lookupD dv "w" with
    | some (v :: _) =>
        match v.value.toSize with
        | some n => .ok (.SetValue (.integer n))
        | none => .error "size dependency is not a size"
    | _ => .error "no size dependency value"
  return_array_dependency_instructions := [("essen", .Essential none)]
  determine_element_from_dependencies := fun _ dv =>
    match lookupD dv "essen" with
    | some (v :: _) => .ok (.SetValue v.value)
    | _ => .error "no essential value for element"

/-- A scalar that reads element 1 of the array arr. -/
def wDef : StateVarDefData where
  kind := .NumberK
  initial_essential_value := .number 0
  return_dependency_instructions :=
    [("e", .StateVar none (.Single (.ArrayElement "arr" 1)))]
  determine_state_var_from_dependencies := fun dv =>
    match lookupD dv "e" with
    | some (v :: _) => .ok (.SetValue v.value)
    | _ => .error "no dependency value"

def node7C : ComponentNode where
  name := "C"
  definition := { component_type := "cyclic"
                  state_var_definitions := [("arr", arrDef), ("w", wDef)] }

def c7Built : Except RunErr (Except DoenetMLError (DoenetCore × Store)) :=
  create_doenet_core [("C", node7C)] [] "C" none

/-- The core c7Built constructs, written out (the construction returns
exactly this value, proved below). -/
def c7Core : DoenetCore where
  component_nodes := [("C", node7C)]
  root_component_name := "C"
  dependencies :=
    [(⟨⟨"C", .Single (.SizeOf "arr")⟩, "w"⟩,
      [.StateVar ⟨⟨.Single (.Basic "C"), []⟩, .Single (.Basic "w")⟩]),
     (⟨⟨"C", .Array "arr"⟩, "essen"⟩,
      [.Essential "C" (.StateVar "arr")]),
     (⟨⟨"C", .Single (.Basic "w")⟩, "e"⟩,
      [.StateVar ⟨⟨.Single (.Basic "C"), []⟩,
        .Single (.ArrayElement "arr" 1)⟩])]
  group_dependencies := []

/-- The store c7Built constructs, written out. -/
def c7Store0 : Store where
  component_states := [("C", [("arr", .array []), ("w", .single [])])]
  essential_data :=
    [("C", [(.StateVar "arr", .array [] (.number 0) [])])]
  trace := []

def c7W : ComponentState := ⟨⟨"C", []⟩, .Basic "w"⟩

def c7E : ComponentState := ⟨⟨"C", []⟩, .ArrayElement "arr" 1⟩

def c7S : ComponentState := ⟨⟨"C", []⟩, .SizeOf "arr"⟩

/-! ## Copy chains and copy cycles -/

/-- One step of the copy-source walks: component a is a whole-component copy
whose source reference names b. -/
def copyLinksTo (components : List (ComponentName × ComponentNode))
    (a b : ComponentName) : Bool :=
  match lookupD components a with
  | some node =>
      match node.copy_source with
      | some (.Component crr) => crr.ref.name == b
      | _ => false
  | none => false

/-- A directed copy cycle: a nonempty duplicate-free list of component names
in which every component copies the next and the last copies the first. -/
def IsCopyCycle (components : List (ComponentName × ComponentNode))
    (cyc : List ComponentName) : Prop :=
  cyc ≠ [] ∧ cyc.Nodup ∧
  List.Chain' (fun a b => copyLinksTo components a b = true)
    (cyc ++ cyc.take 1)

/-- Whether the whole-component copy source of a node, if any, names an
existing component. -/
def node_copy_target_ok (components : List (ComponentName × ComponentNode))
    (node : ComponentNode) : Bool :=
  match node.copy_source with
  | some (.Component crr) => containsD components crr.ref.name
  | _ => true

/-- Well-formed component tables: keys are unique, every node records its own
key as its name, and every whole-component copy source names an existing
component. -/
def NodesWellFormed (components : List (ComponentName × ComponentNode)) :
    Prop :=
  (components.map Prod.fst).Nodup ∧
  ∀ p ∈ components, p.2.name = p.1 ∧
    node_copy_target_ok components p.2 = true

/-- A terminating whole-component copy chain: ch lists the components walked
from c (inclusive) down to the terminal component, which either has no copy
source or a copy source that is not a whole-component Basic reference, just
as get_recursive_copy_source_aux distinguishes (lib.rs lines 3076-3092).  The
result field accumulates the relative instances along the chain. -/
inductive CopyChain (components : List (ComponentName × ComponentNode)) :
    List ComponentName → ComponentName → ComponentNodeRelative → Prop
  | last (c : ComponentName) (node : ComponentNode)
      (h : lookupD components c = some node)
      (hname : node.name = c)
      (hterm : match node.copy_source with
        | some (.Component ⟨.Basic _, _⟩) => False
        | _ => True) :
      CopyChain components [c] c ⟨c, []⟩
  | step (c s : ComponentName) (node : ComponentNode)
      (inst1 : RelativeInstance) (t : ComponentName) (r2 : RelativeInstance)
      (ch : List ComponentName)
      (h : lookupD components c = some node)
      (hname : node.name = c)
      (hcs : node.copy_source = some (.Component ⟨.Basic s, inst1⟩))
      (tail1 : CopyChain components ch s ⟨t, r2⟩) :
      CopyChain components (c :: ch) c ⟨t, inst1 ++ r2⟩

/-- Two components for the copy-sharing scenario: B is a whole-component copy
of A. -/
def node10A : ComponentNode where
  name := "A"
  definition := { component_type := "arrayHolder"
                  state_var_definitions := [("xs", xsDef)] }

def node10B : ComponentNode where
  name := "B"
  copy_source := some (.Component ⟨.Basic "A", []⟩)
  definition := { component_type := "arrayHolder"
                  state_var_definitions := [("xs", xsDef)] }

def components10 : List (ComponentName × ComponentNode) :=
  [("A", node10A), ("B", node10B)]

/-- Two components copying each other, for the cycle scenario. -/
def node5X : ComponentNode where
  name := "X"
  copy_source := some (.Component ⟨.Basic "Y", []⟩)
  definition := { component_type := "empty", state_var_definitions := [] }

def node5Y : ComponentNode where
  name := "Y"
  copy_source := some (.Component ⟨.Basic "X", []⟩)
  definition := { component_type := "empty", state_var_definitions := [] }

def components5 : List (ComponentName × ComponentNode) :=
  [("X", node5X), ("Y", node5Y)]

/-- The store after the invalidating write of the first scenario. -/
def c1StoreAfter : Store :=
  match c1Store2 with
  | .ok st => st
  | .error _ => emptyStore

end Doenet

namespace Doenet

/-! ## Association list lemmas -/

theorem lookupD_insertD_self {α β : Type} [DecidableEq α]
    (l : List (α × β)) (a : α) (b : β) :
    lookupD (insertD l a b) a = some b := by
  induction l with
  | nil => simp [insertD, lookupD]
  | cons p t ih =>
      obtain ⟨k, v⟩ := p
      by_cases h : k = a
      · simp [insertD, h, lookupD]
      · simp [insertD, h, lookupD, ih]

theorem lookupD_insertD_ne {α β : Type} [DecidableEq α]
    (l : List (α × β)) (a a' : α) (b : β) (h : a' ≠ a) :
    lookupD (insertD l a b) a' = lookupD l a' := by
  induction l with
  | nil => simp [insertD, lookupD, Ne.symm h]
  | cons p t ih =>
      obtain ⟨k, v⟩ := p
      by_cases hk : k = a
      · subst hk
        simp [insertD, lookupD, Ne.symm h]
      · simp [insertD, hk, lookupD, ih]

/-! ## The invalidation compatibility rules -/

/-- C3, counterexample: a dependency edge targeting element 2 of an array is
treated as depending on a write to element 1 of the same array, although the
two element indices differ; the source (lib.rs lines 2321-2323) compares the
state-variable names bound by the first fields of the two ArrayElement
references instead of the indices. -/
theorem C3_counterexample_distinct_elements :
    slice_depends_on_slice (.Single (.ArrayElement "xs" 2))
      (.Single (.ArrayElement "xs" 1)) = true := by decide

/-- C3, amended: the compatibility rules actually implemented by
slice_depends_on_slice.  Under an equal variable name: an Array target always
matches, an Array write always matches, a SizeOf write always matches, a
Basic target matches a Basic write, and an ArrayElement target matches an
ArrayElement write REGARDLESS of the two element indices (the test reduces to
name equality); SizeOf and Basic targets do not match an ArrayElement
write. -/
theorem C3_slice_depends_rules (n m : StateVarName) (i j : Nat)
    (r : StateRef) :
    (slice_depends_on_slice (.Array n) (.Single r) = (n == r.name)) ∧
    (slice_depends_on_slice (.Single r) (.Array m) = (r.name == m)) ∧
    (slice_depends_on_slice (.Single r) (.Single (.SizeOf m))
      = (r.name == m)) ∧
    (slice_depends_on_slice (.Single (.Basic n)) (.Single (.Basic m))
      = (n == m)) ∧
    (slice_depends_on_slice (.Single (.ArrayElement n i))
      (.Single (.ArrayElement m j)) = (n == m)) ∧
    (slice_depends_on_slice (.Single (.SizeOf n))
      (.Single (.ArrayElement m j)) = false) ∧
    (slice_depends_on_slice (.Single (.Basic n))
      (.Single (.ArrayElement m j)) = false) := by
  refine ⟨?_, ?_, ?_, ?_, ?_, ?_, ?_⟩ <;> cases r <;>
    simp [slice_depends_on_slice, StateVarSlice.name, StateRef.name]

/-! ## Dropped update requests on a failed inverse -/

/-- C4, counterexample: for the state variable u with instructions i1 (whose
inverse request fails) and i2 (whose inverse request succeeds), the whole
action-driven update is a silent no-op: the store is returned unchanged and
the i2 request is never applied — although the very same i2 request converts
to an essential update request when i1 does not fail first.  This refutes
that only the failing instruction is dropped while the remaining
instructions are still converted and applied. -/
theorem C4_counterexample_remaining_dropped :
    process_update_request c4Core 40 c4Store0
      (.SetStateVar c4u (.number 7)) = .ok c4Store0 ∧
    convert_dependency_values_to_update_request 40 c4Core c4Store0 c4u
      [("i1", .error "cannot invert a derived value"),
       ("i2", .ok [⟨.EssentialSrc "number", .number 7⟩])] =
      .ok ([], c4Store0) ∧
    convert_dependency_values_to_update_request 40 c4Core c4Store0 c4u
      [("i2", .ok [⟨.EssentialSrc "number", .number 7⟩])] =
      .ok ([.SetEssentialValue ⟨⟨"D", []⟩, .StateVar "u", .Basic⟩
        (.number 7)], c4Store0) := by decide

/-- C4, amended: when the inverse-value request of one dependency instruction
fails, the conversion loop breaks out entirely (lib.rs line 2586 `break`):
the update requests already accumulated from earlier instructions are
returned, and the failing instruction and every not-yet-processed instruction
are dropped. -/
theorem C4_failed_instruction_breaks (fuel : Nat) (core : DoenetCore)
    (st : Store) (cs : ComponentState)
    (mydeps : List (InstructionName × List Dependency))
    (n : InstructionName) (e : String)
    (rest : List (InstructionName × Except String (List DependencyValue)))
    (acc : List UpdateRequest) :
    convert_requests_loop fuel core st cs mydeps
      ((n, Except.error e) :: rest) acc = .ok (acc, st) := rfl

/-! ## Essential data creation -/

/-- C9, counterexample: a second creation request for the same
(component, origin) key is not an idempotent no-op: it trips the assertion of
create_essential_data_for (lib.rs line 1246) even when the initial values are
identical to the first request.  (The model returns the assertion as an
error; the source panics.) -/
theorem C9_counterexample_second_create :
    (create_essential_data_for "A" (.StateVar "xs") (.Single (.number 0))
      []).bind
      (fun ed => create_essential_data_for "A" (.StateVar "xs")
        (.Single (.number 0)) ed) =
    .error "assertion failed: essential data already exists for this origin"
    := by decide

/-- C9, amended: each (component, origin) essential datum is created at most
once.  If the key is absent the creation succeeds, the datum exists
afterwards, and every other key is untouched; if the key already exists —
including when the core is built over an existing essential-data snapshot —
the creation request fails the assertion instead of being a no-op. -/
theorem C9_create_essential_once (c : ComponentName)
    (o : EssentialDataOrigin) (init : InitialEssentialData)
    (ed : EssentialData) :
    (essential_data_exists_for c o ed = true →
      create_essential_data_for c o init ed =
        .error
          "assertion failed: essential data already exists for this origin")
    ∧
    (essential_data_exists_for c o ed = false →
      ∃ ed2, create_essential_data_for c o init ed = .ok ed2 ∧
        essential_data_exists_for c o ed2 = true ∧
        ∀ c2 o2, ¬(c2 = c ∧ o2 = o) →
          (lookupD ed2 c2).bind (fun m => lookupD m o2) =
          (lookupD ed c2).bind (fun m => lookupD m o2)) := by
  constructor
  · intro hex
    unfold essential_data_exists_for at hex
    cases hc : lookupD ed c with
    | none => rw [hc] at hex; exact absurd hex (by simp)
    | some m =>
        rw [hc] at hex
        have hex2 : containsD m o = true := hex
        simp [create_essential_data_for, hc, hex2]
  · intro hnex
    unfold essential_data_exists_for at hnex
    cases hc : lookupD ed c with
    | none =>
        refine ⟨insertD ed c [(o, match init with
          | .Single v =>
              EssentialStateVar.new_single_basic_with_state_var_value v
          | .Array vs fill =>
              EssentialStateVar.new_array_with_state_var_values vs fill)],
          ?_, ?_, ?_⟩
        · cases init <;> simp [create_essential_data_for, hc, updateD, lookupD,
            insertD]
        · simp [essential_data_exists_for, containsD, lookupD_insertD_self,
            lookupD]
        · intro c2 o2 hne
          by_cases hcc : c2 = c
          · subst hcc
            have ho : o2 ≠ o := fun hh => hne ⟨rfl, hh⟩
            simp [lookupD_insertD_self, hc, lookupD, Ne.symm ho]
          · simp [lookupD_insertD_ne _ c c2 _ hcc]
    | some m =>
        rw [hc] at hnex
        have hnex2 : containsD m o = false := hnex
        have hmO : lookupD m o = none := by
          cases hm : lookupD m o with
          | none => rfl
          | some ex => rw [containsD, hm] at hnex2; exact absurd hnex2 (by simp)
        refine ⟨insertD ed c (insertD m o (match init with
          | .Single v =>
              EssentialStateVar.new_single_basic_with_state_var_value v
          | .Array vs fill =>
              EssentialStateVar.new_array_with_state_var_values vs fill)),
          ?_, ?_, ?_⟩
        · cases init <;> simp [create_essential_data_for, hc, hnex2, updateD,
            hmO]
        · simp [essential_data_exists_for, containsD, lookupD_insertD_self]
        · intro c2 o2 hne
          by_cases hcc : c2 = c
          · subst hcc
            have ho : o2 ≠ o := fun hh => hne ⟨rfl, hh⟩
            simp [lookupD_insertD_self, hc,
              lookupD_insertD_ne _ o o2 _ ho]
          · simp [lookupD_insertD_ne _ c c2 _ hcc]

/-- Closed instance of the amended creation theorem at a concrete fresh key,
with both hypotheses discharged by evaluation. -/
theorem C9_create_essential_once_witness :
    essential_data_exists_for "A" (.StateVar "xs") [] = false ∧
    (∃ ed2, create_essential_data_for "A" (.StateVar "xs")
        (.Single (.number 0)) [] = .ok ed2 ∧
      essential_data_exists_for "A" (.StateVar "xs") ed2 = true ∧
      ∀ c2 o2, ¬(c2 = "A" ∧ o2 = EssentialDataOrigin.StateVar "xs") →
        (lookupD ed2 c2).bind (fun m => lookupD m o2) =
        (lookupD ([] : EssentialData) c2).bind (fun m => lookupD m o2)) :=
  ⟨by decide,
   (C9_create_essential_once "A" (.StateVar "xs") (.Single (.number 0))
     []).2 (by decide)⟩

end Doenet

namespace Doenet

/-! ## Invalidation of essential-datum dependents -/

/-- C1, counterexample: in the two-component core, the only dependency of
B.v is element 2 of the array A.xs, and before the write B.v is Resolved
with value 4.  Writing the essential datum behind A.xs at index 1 leaves
element 2 of A.xs Resolved and unchanged — so nothing B.v depends on
changed, and re-resolving B.v still yields 4 — yet the invalidation pass
marks B.v Stale.  This refutes the only-if direction: a slice whose value
does not depend on the written datum is marked Stale. -/
theorem C1_counterexample_overmark :
    c1Store2 = .ok c1StoreAfter ∧
    dependencies_of_state_var c1Core.dependencies ⟨"B", .Basic "v"⟩ =
      [("d", [.StateVar ⟨⟨.Single (.Basic "A"), []⟩,
        .Single (.ArrayElement "xs" 2)⟩])] ∧
    stateOf c1Store1 "B" "v" .Basic = some (.Resolved (.number 4)) ∧
    stateOf c1StoreAfter "A" "xs" (.Element 2) =
      some (.Resolved (.number 4)) ∧
    stateOf c1StoreAfter "B" "v" .Basic = some .Stale ∧
    resolveValue 40 c1Core c1StoreAfter Bv = some (.number 4) := by decide

/-- C1, amended: the invalidation pass marks Stale the written slice itself
(the dependency keys holding an edge to the essential datum, specialized to
the written index) and then, transitively, every resolved key whose edge
matches the written slice under slice_depends_on_slice — a name-level test
that ignores element indices for element-to-element edges.  Every slice that
truly depends on the write is included (here A.xs[1], previously Resolved 3,
becomes Stale and re-resolves to the new value 99), but dependents of other
elements of the same array are over-invalidated; re-resolution after the
write is consistent with the new input (B.v re-resolves to its old value
4). -/
theorem C1_invalidation_marks_name_level :
    stateOf c1Store1 "A" "xs" (.Element 1) = some (.Resolved (.number 3)) ∧
    stateOf c1StoreAfter "A" "xs" (.Element 1) = some .Stale ∧
    resolveValue 40 c1Core c1StoreAfter Axs1 = some (.number 99) ∧
    resolveValue 40 c1Core c1StoreAfter Bv = some (.number 4) := by decide

/-! ## The point end-to-end scenario -/

/-- C2, counterexample: the point core resolves numericalXs elements 1 and 2
to 3 and 4, but dispatching movePoint with x=5, y=6 does not lead to a
subsequent resolve of 5: the action handler writes coords elements 0 and 1
(point.rs lines 172-175) although element indices are 1-based, element 0 has
no compiled dependency key (the builder creates element keys 1 and 2 only),
and the update panics looking up the instruction of the nonexistent key
(lib.rs line 2581 expect).  The model returns the panic as a fatal error and
no store is produced. -/
theorem C2_counterexample_movePoint_panics :
    pointDef.on_action "movePoint" [("x", .number 5), ("y", .number 6)] =
      .ok [(.ArrayElement "coords" 0, .number 5),
           (.ArrayElement "coords" 1, .number 6)] ∧
    handle_action 40 c2Core c2Store0 moveAction =
      .error (.fatal "wrong instruction name to determine dependencies") :=
  by decide

/-- C2, amended: for the point constructed with attribute coords mapping
index 1 to 3 and index 2 to 4, resolving numericalXs element 1 returns 3 and
element 2 returns 4; dispatching movePoint with x=5, y=6 panics (its writes
target the 0-based coords elements 0 and 1, and element 0 does not exist in
the 1-based engine), so no update is applied and a resolve of numericalXs
element 1 still returns 3. -/
theorem C2_point_resolves_then_action_panics :
    resolveValue 40 c2Core c2Store0 c2nx1 = some (.number 3) ∧
    resolveValue 40 c2Core c2Store0 c2nx2 = some (.number 4) ∧
    handle_action 40 c2Core c2Store0 moveAction =
      .error (.fatal "wrong instruction name to determine dependencies") ∧
    resolveValue 40 c2Core
      (resolveStore 40 c2Core c2Store0 c2nx1) c2nx1 = some (.number 3) :=
  by decide

end Doenet

namespace Doenet

/-! ## Size-before-element ordering -/

/-- C6: resolving an array-element state variable first resolves the SizeOf
variable of the same array — the element resolution is exactly the size
resolution followed, on the size-updated store, by the element body, and a
failure of the size resolution propagates (lib.rs lines 1595-1598); likewise
resolving a whole array slice resolves the size variable first and only then
the elements, in the store left by the size resolution (lib.rs lines
1774-1796). -/
theorem C6_size_resolved_before_element (fuel : Nat) (core : DoenetCore)
    (st : Store) (node : ComponentNodeInstance) (nm : StateVarName)
    (i : Nat) :
    (resolve_state_variable (fuel + 1) core st ⟨node, .ArrayElement nm i⟩ =
      (resolve_state_variable fuel core st ⟨node, .SizeOf nm⟩).bind
        (fun p => resolve_sv_inner (resolverOf fuel core) core fuel p.2
          ⟨node, .ArrayElement nm i⟩)) ∧
    (∀ r : Resolver, resolve_slice r st ⟨node, .Array nm⟩ =
      (r st ⟨node, .SizeOf nm⟩).bind (fun p =>
        match p.1 with
        | none => .error (.fatal
            "array size should always resolve to a StateVarValue")
        | some size_value =>
            match size_value.toSize with
            | none => .error (.fatal "array size is not a usize")
            | some size =>
                resolve_slice_elements_loop r p.2 ⟨node, .Array nm⟩
                  (indices_for_size size) [])) ∧
    (∀ e, resolve_state_variable fuel core st ⟨node, .SizeOf nm⟩ =
        .error e →
      resolve_state_variable (fuel + 1) core st ⟨node, .ArrayElement nm i⟩ =
        .error e) := by
  have harm : ∀ (x : Except RunErr (Option StateVarValue × Store))
      (f : Store → Except RunErr (Option StateVarValue × Store)),
      (match x with
       | .error e => .error e
       | .ok (_, st1) => f st1) = x.bind (fun p => f p.2) := by
    intro x f
    cases x with
    | error e => rfl
    | ok p => rfl
  refine ⟨?_, ?_, ?_⟩
  · exact harm (resolve_state_variable fuel core st ⟨node, .SizeOf nm⟩) _
  · intro r
    show (match r st ⟨node, .SizeOf nm⟩ with
      | Except.error e => Except.error e
      | Except.ok (size_value_opt, st1) =>
          match size_value_opt with
          | none => Except.error (RunErr.fatal
              "array size should always resolve to a StateVarValue")
          | some size_value =>
              match size_value.toSize with
              | none => Except.error (RunErr.fatal
                  "array size is not a usize")
              | some size =>
                  resolve_slice_elements_loop r st1 ⟨node, .Array nm⟩
                    (indices_for_size size) []) = _
    cases r st ⟨node, .SizeOf nm⟩ with
    | error e => rfl
    | ok p => rfl
  · intro e h
    have := harm (resolve_state_variable fuel core st ⟨node, .SizeOf nm⟩)
      (fun st1 => resolve_sv_inner (resolverOf fuel core) core fuel st1
        ⟨node, .ArrayElement nm i⟩)
    show (match resolve_state_variable fuel core st ⟨node, .SizeOf nm⟩ with
      | Except.error e => Except.error e
      | Except.ok (_, st1) => resolve_sv_inner
          (fun st2 cs => resolve_state_variable fuel core st2 cs)
          core fuel st1 ⟨node, .ArrayElement nm i⟩) = Except.error e
    rw [h]

/-- Closed instance of the ordering theorem in the two-component core: the
resolution of A.xs element 1 decomposes as the resolution of SizeOf xs
followed by the element body. -/
theorem C6_size_resolved_before_element_witness :
    resolve_state_variable 40 c1Core c1Store0 Axs1 =
      (resolve_state_variable 39 c1Core c1Store0
        ⟨⟨"A", []⟩, .SizeOf "xs"⟩).bind
        (fun p => resolve_sv_inner (resolverOf 39 c1Core) c1Core 39 p.2
          ⟨⟨"A", []⟩, .ArrayElement "xs" 1⟩) :=
  (C6_size_resolved_before_element 39 c1Core c1Store0 ⟨"A", []⟩ "xs" 1).1

/-! ## Idempotent resolution of a Resolved variable -/

/-- C8: resolving a state variable that is already Resolved at the given
instance returns the cached value and leaves the store — including the trace
of derivation-function invocations — entirely unchanged, so the variable
definition is not re-invoked (lib.rs lines 1600-1613).  For an array element
the pre-resolved size variable is required to be cached as well, which the
engine itself guarantees (size-before-element ordering). -/
theorem C8_resolve_resolved_is_cached (fuel : Nat) (core : DoenetCore)
    (st : Store) (cs : ComponentState) (v : StateVarValue)
    (h1 : (st.get_state_var cs.node.comp cs.ref.name).map
      (fun sv => sv.get_single_state cs.ref.index cs.node.inst) =
      some (Except.ok (some (StateV.Resolved v))))
    (h2 : ∀ nm i, cs.ref = StateRef.ArrayElement nm i → ∃ w,
      (st.get_state_var cs.node.comp nm).map
        (fun sv => sv.get_single_state .SizeOf cs.node.inst) =
        some (Except.ok (some (StateV.Resolved w)))) :
    resolve_state_variable (fuel + 2) core st cs = .ok (some v, st) := by
  obtain ⟨node, ref⟩ := cs
  cases hsv : Store.get_state_var st node.comp ref.name with
  | none => rw [hsv] at h1; exact absurd h1 (by simp)
  | some sv =>
      rw [hsv] at h1
      simp only [Option.map_some] at h1
      replace h1 := Option.some.inj h1
      simp only at h1
      cases ref with
      | Basic nm =>
          simp only [StateRef.index] at h1
          simp only [StateRef.name] at hsv
          simp only [resolve_state_variable, resolve_sv_inner,
            StateRef.name, StateRef.index, hsv, h1]
      | SizeOf nm =>
          simp only [StateRef.index] at h1
          simp only [StateRef.name] at hsv
          simp only [resolve_state_variable, resolve_sv_inner,
            StateRef.name, StateRef.index, hsv, h1]
      | ArrayElement nm i =>
          simp only [StateRef.index] at h1
          simp only [StateRef.name] at hsv
          obtain ⟨w, hw⟩ := h2 nm i rfl
          rw [hsv] at hw
          simp only [Option.map_some] at hw
          replace hw := Option.some.inj hw
          simp only at hw
          simp only [resolve_state_variable, ComponentState.new_index,
            StateRef.name, StateRef.from_name_and_index, resolve_sv_inner,
            StateRef.index, hsv, hw, h1]

/-- Closed instance of the cached-resolution theorem: B.v is Resolved with
value 4 after the first resolution pass, and resolving it again returns the
value with the store unchanged. -/
theorem C8_resolve_resolved_is_cached_witness :
    resolve_state_variable 42 c1Core c1Store1 Bv =
      .ok (some (.number 4), c1Store1) :=
  C8_resolve_resolved_is_cached 40 c1Core c1Store1 Bv (.number 4)
    (by decide)
    (by intro nm i h; simp [Bv] at h)

end Doenet

namespace Doenet

/-! ## Copy chains: evaluation, uniqueness and the shared essential target -/

theorem lookupD_mem {α β : Type} [DecidableEq α] (l : List (α × β)) (a : α)
    (b : β) (h : lookupD l a = some b) : a ∈ l.map Prod.fst := by
  induction l with
  | nil => simp [lookupD] at h
  | cons p t ih =>
      obtain ⟨k, v⟩ := p
      by_cases hk : k = a
      · subst hk; simp
      · rw [lookupD, if_neg hk] at h
        simp [ih h]

/-- The copy-source walk of the source computes exactly the terminal of a
terminating copy chain, given fuel at least the chain length. -/
theorem copyChain_aux_eval
    (components : List (ComponentName × ComponentNode))
    (ch : List ComponentName) (c : ComponentName)
    (r : ComponentNodeRelative) (h : CopyChain components ch c r) :
    ∀ fuel, ch.length ≤ fuel →
      get_recursive_copy_source_aux components fuel c = .ok r := by
  induction h with
  | last c node hl hname hterm =>
      intro fuel hf
      cases fuel with
      | zero => simp at hf
      | succ f =>
          simp only [get_recursive_copy_source_aux, hl]
          cases hcs : node.copy_source with
          | none => simp [hname]
          | some cs =>
              cases cs with
              | Component crr =>
                  obtain ⟨cref, rel⟩ := crr
                  cases cref with
                  | Basic s => rw [hcs] at hterm; simp at hterm
                  | BatchMember a b k => simp [hname]
                  | CollectionMember a k => simp [hname]
              | StateVar rr => simp [hname]
              | DynamicElement a b k d => simp [hname]
              | MapSources s => simp [hname]
  | step c s node inst1 t r2 ch hl hname hcs tail1 ih =>
      intro fuel hf
      cases fuel with
      | zero => simp at hf
      | succ f =>
          have hf2 : ch.length ≤ f := by
            simp only [List.length_cons] at hf; omega
          simp only [get_recursive_copy_source_aux, hl, hcs, ih f hf2]
          rfl

/-- Every component on a terminating copy chain is a key of the table. -/
theorem copyChain_subset
    (components : List (ComponentName × ComponentNode))
    (ch : List ComponentName) (c : ComponentName)
    (r : ComponentNodeRelative) (h : CopyChain components ch c r) :
    ∀ x ∈ ch, x ∈ components.map Prod.fst := by
  induction h with
  | last c node hl hname hterm =>
      intro x hx
      simp only [List.mem_singleton] at hx
      subst hx
      exact lookupD_mem components x node hl
  | step c s node inst1 t r2 ch hl hname hcs tail1 ih =>
      intro x hx
      rcases List.mem_cons.mp hx with hx | hx
      · subst hx; exact lookupD_mem components x node hl
      · exact ih x hx

/-- Terminating copy chains are unique: the walk is a function of the
table. -/
theorem copyChain_unique
    (components : List (ComponentName × ComponentNode))
    (ch : List ComponentName) (c : ComponentName)
    (r : ComponentNodeRelative) (h : CopyChain components ch c r) :
    ∀ ch2 r2, CopyChain components ch2 c r2 → ch = ch2 ∧ r = r2 := by
  induction h with
  | last c node hl hname hterm =>
      intro ch2 r2 h2
      cases h2 with
      | last _ node2 hl2 hname2 hterm2 => exact ⟨rfl, rfl⟩
      | step _ s2 node2 inst2 t2 rr2 chh hl2 hname2 hcs2 tail2 =>
          rw [hl] at hl2
          replace hl2 := Option.some.inj hl2
          subst hl2
          rw [hcs2] at hterm
          simp at hterm
  | step c s node inst1 t r2 ch hl hname hcs tail1 ih =>
      intro ch2 rr2 h2
      cases h2 with
      | last _ node2 hl2 hname2 hterm2 =>
          rw [hl] at hl2
          replace hl2 := Option.some.inj hl2
          subst hl2
          rw [hcs] at hterm2
          simp at hterm2
      | step _ s2 node2 inst2 t2 rr3 chh hl2 hname2 hcs2 tail2 =>
          rw [hl] at hl2
          replace hl2 := Option.some.inj hl2
          subst hl2
          rw [hcs] at hcs2
          replace hcs2 := Option.some.inj hcs2
          cases hcs2
          obtain ⟨hch, hr⟩ := ih chh ⟨t2, rr3⟩ tail2
          cases hch
          cases hr
          exact ⟨rfl, rfl⟩

/-- Every member of a terminating copy chain heads its own terminating
suffix chain. -/
theorem copyChain_mem_suffix
    (components : List (ComponentName × ComponentNode))
    (ch : List ComponentName) (c : ComponentName)
    (r : ComponentNodeRelative) (h : CopyChain components ch c r) :
    ∀ b ∈ ch, ∃ chb rb, CopyChain components chb b rb ∧
      List.IsSuffix chb ch := by
  induction h with
  | last c node hl hname hterm =>
      intro b hb
      simp only [List.mem_singleton] at hb
      subst hb
      exact ⟨[b], ⟨b, []⟩, CopyChain.last b node hl hname hterm,
        List.suffix_refl _⟩
  | step c s node inst1 t r2 ch hl hname hcs tail1 ih =>
      intro b hb
      rcases List.mem_cons.mp hb with hb | hb
      · subst hb
        exact ⟨b :: ch, ⟨t, inst1 ++ r2⟩,
          CopyChain.step b s node inst1 t r2 ch hl hname hcs tail1,
          List.suffix_refl _⟩
      · obtain ⟨chb, rb, d, hsuf⟩ := ih b hb
        exact ⟨chb, rb, d, hsuf.trans (List.suffix_cons c ch)⟩

/-- A terminating copy chain never revisits a component. -/
theorem copyChain_nodup
    (components : List (ComponentName × ComponentNode))
    (ch : List ComponentName) (c : ComponentName)
    (r : ComponentNodeRelative) (h : CopyChain components ch c r) :
    ch.Nodup := by
  induction h with
  | last c node hl hname hterm => simp
  | step c s node inst1 t r2 ch hl hname hcs tail1 ih =>
      refine List.nodup_cons.mpr ⟨?_, ih⟩
      intro hmem
      obtain ⟨chb, rb, d, hsuf⟩ := copyChain_mem_suffix components ch s
        ⟨t, r2⟩ tail1 c hmem
      have hlen : chb.length ≤ ch.length := hsuf.length_le
      have hwhole : CopyChain components (c :: ch) c ⟨t, inst1 ++ r2⟩ :=
        CopyChain.step c s node inst1 t r2 ch hl hname hcs tail1
      obtain ⟨hch, _⟩ := copyChain_unique components chb c rb d
        (c :: ch) ⟨t, inst1 ++ r2⟩ hwhole
      subst hch
      simp at hlen

/-- C10: for a component C whose whole-component copy chain terminates at S,
with S distinct from C, the compiled Essential instruction of any of C's
state variables produces exactly one edge, targeting the essential datum of
S under C's variable name, and allocates nothing: the essential store is
returned unchanged, so C has no essential datum of its own and a write
reached through C and a resolve on S address the same (S, origin) key. -/
theorem C10_copies_share_source_essential
    (components : List (ComponentName × ComponentNode))
    (C S : ComponentName) (ch : List ComponentName)
    (rel : RelativeInstance) (slice : StateVarSlice) (attrs : CompAttrs)
    (prefill : Option AttributeName) (ed : EssentialData) (init : Bool)
    (hchain : CopyChain components ch C ⟨S, rel⟩) (hne : S ≠ C) :
    create_dependencies_from_instruction components ⟨C, slice⟩ attrs
      (.Essential prefill) ed init =
      .ok ([Dependency.Essential S (.StateVar slice.name)], ed) := by
  have hlen : ch.length ≤ components.length + 1 := by
    have hsub := copyChain_subset components ch C ⟨S, rel⟩ hchain
    have hnd := copyChain_nodup components ch C ⟨S, rel⟩ hchain
    have hsp := List.subperm_of_subset hnd hsub
    have := hsp.length_le
    simp only [List.length_map] at this
    omega
  have hrec : get_recursive_copy_source_component_when_exists components C =
      .ok ⟨S, rel⟩ := by
    unfold get_recursive_copy_source_component_when_exists
    exact copyChain_aux_eval components ch C ⟨S, rel⟩ hchain
      (components.length + 1) hlen
  obtain ⟨node, hlook, hname⟩ :
      ∃ node, lookupD components C = some node ∧ node.name = C := by
    cases hchain with
    | last _ node hl hname2 hterm => exact ⟨node, hl, hname2⟩
    | step _ s node inst1 t r2 chh hl hname2 hcs tail1 =>
        exact ⟨node, hl, hname2⟩
  have hbeq : (S == node.name) = false := by
    rw [hname]
    exact beq_eq_false_iff_ne.mpr hne
  simp only [create_dependencies_from_instruction, hlook, hrec, hbeq,
    Bool.and_false, Bool.false_eq_true, if_false, bind, Except.bind, pure,
    Except.pure]

/-- Closed instance: B copies A, A is terminal, and the Essential
instruction compiled for B targets the essential datum of A without
allocating anything under B. -/
theorem C10_copies_share_source_essential_witness :
    create_dependencies_from_instruction components10 ⟨"B", .Array "xs"⟩ []
      (.Essential none) [] true =
      .ok ([Dependency.Essential "A" (.StateVar "xs")], []) :=
  C10_copies_share_source_essential components10 "B" "A" ["B", "A"] []
    (.Array "xs") [] none [] true
    (CopyChain.step "B" "A" node10B [] "A" [] ["A"] rfl rfl rfl
      (CopyChain.last "A" node10A rfl rfl (by simp [node10A])))
    (by decide)

end Doenet

namespace Doenet

theorem c7_inner_w_err (r : Resolver) (g : Nat)
    (h : r c7Store0 c7E = .error .fuelOut) :
    resolve_sv_inner r c7Core (g + 1) c7Store0 c7W = .error .fuelOut := by
  simp only [c7E] at h
  have hint : instance_relative_to_group_internal c7Core.component_nodes
      ⟨"C", []⟩ ⟨"C", []⟩ = ([], []) := rfl
  have hA : Store.get_state_var c7Store0 "C" "w" =
      some (.single []) := rfl
  have hB : StateForStateVar.get_single_state (.single []) .Basic [] =
      .ok (some .Stale) := rfl
  have hC : dependencies_of_state_var c7Core.dependencies
      ⟨"C", StateRef.Basic "w"⟩ =
      [("e", [.StateVar ⟨⟨.Single (.Basic "C"), []⟩,
        .Single (.ArrayElement "arr" 1)⟩])] := rfl
  have hD : get_source_for_dependency c7Core
      (.StateVar ⟨⟨.Single (.Basic "C"), []⟩,
        .Single (.ArrayElement "arr" 1)⟩) c7Store0.essential_data =
      .ok (.StateVarSrc "cyclic" "arr") := rfl
  have hlook : lookupD c7Core.component_nodes "C" = some node7C := rfl
  have hct : node7C.definition.component_type = "cyclic" := rfl
  simp [resolve_sv_inner, c7W, ComponentState.ignore_instance,
    resolve_deps_loop, resolve_dep_list_loop, resolve_one_dep,
    group_instance_relative_to, all_map_instances,
    statevar_group_instances_loop, statevar_members_loop,
    component_group_members, convert_component_ref_state_var,
    component_ref_apply_collection,
    get_dependency_values_for_state_var_slice, resolve_slice,
    ComponentStateSlice.index, StateRef.from_name_and_index, StateRef.name,
    StateRef.index, StateVarSlice.name, ComponentGroup.name,
    ComponentRef.name, bind, Except.bind, pure, Except.pure,
    hint, hA, hB, hC, hD, hlook, hct, h]

end Doenet

namespace Doenet

theorem c7_inner_s_err (r : Resolver) (g : Nat)
    (h : r c7Store0 c7W = .error .fuelOut) :
    resolve_sv_inner r c7Core (g + 1) c7Store0 c7S = .error .fuelOut := by
  simp only [c7W] at h
  have hint : instance_relative_to_group_internal c7Core.component_nodes
      ⟨"C", []⟩ ⟨"C", []⟩ = ([], []) := rfl
  have hA : Store.get_state_var c7Store0 "C" "arr" =
      some (.array []) := rfl
  have hB : StateForStateVar.get_single_state (.array []) .SizeOf [] =
      .ok (some .Stale) := rfl
  have hC : dependencies_of_state_var c7Core.dependencies
      ⟨"C", StateRef.SizeOf "arr"⟩ =
      [("w", [.StateVar ⟨⟨.Single (.Basic "C"), []⟩,
        .Single (.Basic "w")⟩])] := rfl
  have hD : get_source_for_dependency c7Core
      (.StateVar ⟨⟨.Single (.Basic "C"), []⟩, .Single (.Basic "w")⟩)
      c7Store0.essential_data = .ok (.StateVarSrc "cyclic" "w") := rfl
  have hlook : lookupD c7Core.component_nodes "C" = some node7C := rfl
  have hct : node7C.definition.component_type = "cyclic" := rfl
  simp [resolve_sv_inner, c7S, ComponentState.ignore_instance,
    resolve_deps_loop, resolve_dep_list_loop, resolve_one_dep,
    group_instance_relative_to, all_map_instances,
    statevar_group_instances_loop, statevar_members_loop,
    component_group_members, convert_component_ref_state_var,
    component_ref_apply_collection,
    get_dependency_values_for_state_var_slice, resolve_slice,
    ComponentStateSlice.index, StateRef.from_name_and_index, StateRef.name,
    StateRef.index, StateVarSlice.name, ComponentGroup.name,
    ComponentRef.name, bind, Except.bind, pure, Except.pure,
    hint, hA, hB, hC, hD, hlook, hct, h]

theorem c7_diverges_all : ∀ f : Nat,
    resolve_state_variable f c7Core c7Store0 c7W = .error .fuelOut ∧
    resolve_state_variable f c7Core c7Store0 c7E = .error .fuelOut ∧
    resolve_state_variable f c7Core c7Store0 c7S = .error .fuelOut := by
  intro f
  induction f with
  | zero => exact ⟨rfl, rfl, rfl⟩
  | succ f ih =>
      obtain ⟨ihW, ihE, ihS⟩ := ih
      refine ⟨?_, ?_, ?_⟩
      · cases f with
        | zero => decide
        | succ g =>
            have e1 : resolve_state_variable (g + 1 + 1) c7Core c7Store0
                c7W = resolve_sv_inner
                  (fun st2 cs => resolve_state_variable (g + 1) c7Core st2 cs)
                  c7Core (g + 1) c7Store0 c7W := rfl
            rw [e1]
            exact c7_inner_w_err _ g ihE
      · have e1 : resolve_state_variable (f + 1) c7Core c7Store0 c7E =
            match resolve_state_variable f c7Core c7Store0 c7S with
            | .error e => .error e
            | .ok (_, st1) => resolve_sv_inner
                (fun st2 cs => resolve_state_variable f c7Core st2 cs)
                c7Core f st1 c7E := rfl
        rw [e1, ihS]
      · cases f with
        | zero => decide
        | succ g =>
            have e1 : resolve_state_variable (g + 1 + 1) c7Core c7Store0
                c7S = resolve_sv_inner
                  (fun st2 cs => resolve_state_variable (g + 1) c7Core st2 cs)
                  c7Core (g + 1) c7Store0 c7S := rfl
            rw [e1]
            exact c7_inner_s_err _ g ihW

end Doenet

namespace Doenet

/-- C7: a core that passes both static validators — construction succeeds
and returns it — on which resolve_state_variable nevertheless fails to
terminate.  The cycle runs through the implicit element-to-size
pre-resolution step (lib.rs lines 1595-1598): w reads arr[1], resolving
arr[1] first resolves SizeOf arr, and SizeOf arr reads w.  The dependency
validator (lib.rs lines 3316-3378) follows only explicit StateVar edges
between exactly matching key slices, so it never sees the implicit edge and
reports no cycle; at runtime the recursion never terminates, modeled as
resolution returning the out-of-fuel error at every fuel. -/
theorem C7_validated_core_resolution_diverges :
    c7Built = .ok (.ok (c7Core, c7Store0)) ∧
    check_for_cyclical_copy_sources c7Core.component_nodes = .ok none ∧
    check_for_cyclical_dependencies c7Core.dependencies = .ok none ∧
    ∀ fuel, resolve_state_variable fuel c7Core c7Store0 c7W =
      .error .fuelOut :=
  ⟨rfl, by decide, by decide, fun fuel => (c7_diverges_all fuel).1⟩

end Doenet

namespace Doenet

theorem lookupD_of_mem_nodup {α β : Type} [DecidableEq α]
    (l : List (α × β)) (a : α) (b : β)
    (hnd : (l.map Prod.fst).Nodup) (hmem : (a, b) ∈ l) :
    lookupD l a = some b := by
  induction l with
  | nil => simp at hmem
  | cons p t ih =>
      obtain ⟨k, v⟩ := p
      simp only [List.map_cons, List.nodup_cons] at hnd
      rcases List.mem_cons.mp hmem with heq | hmem2
      · cases heq
        simp [lookupD]
      · have hk : k ≠ a := by
          intro hka
          subst hka
          exact hnd.1 (List.mem_map.mpr ⟨(k, b), hmem2, rfl⟩)
        rw [lookupD, if_neg hk]
        exact ih hnd.2 hmem2

theorem mem_of_lookupD {α β : Type} [DecidableEq α]
    (l : List (α × β)) (a : α) (b : β) (h : lookupD l a = some b) :
    (a, b) ∈ l := by
  induction l with
  | nil => simp [lookupD] at h
  | cons p t ih =>
      obtain ⟨k, v⟩ := p
      by_cases hk : k = a
      · subst hk
        rw [lookupD, if_pos rfl] at h
        replace h := Option.some.inj h
        subst h
        simp
      · rw [lookupD, if_neg hk] at h
        simp [ih h]

/-- Every member of a copy cycle links to another member of the cycle. -/
theorem c5_cycle_succ (components : List (ComponentName × ComponentNode))
    (cyc : List ComponentName) (hcyc : IsCopyCycle components cyc) :
    ∀ a ∈ cyc, ∃ b ∈ cyc, copyLinksTo components a b = true := by
  obtain ⟨hne, hnd, hchain⟩ := hcyc
  intro a ha
  obtain ⟨i, hi, hgi⟩ := List.getElem_of_mem ha
  have hlenL : (cyc ++ cyc.take 1).length = cyc.length + 1 := by
    have h1 : cyc.length ≠ 0 := by
      intro h0
      exact hne (List.eq_nil_of_length_eq_zero h0)
    simp [List.length_append, List.length_take]
    omega
  have hadj := List.chain'_iff_get.mp hchain i (by
    simp only [hlenL]
    omega)
  refine ⟨(cyc ++ cyc.take 1).get ⟨i + 1, by omega⟩, ?_, ?_⟩
  · by_cases hlast : i + 1 < cyc.length
    · have : (cyc ++ cyc.take 1).get ⟨i + 1, by omega⟩ = cyc[i + 1] := by
        simp [List.get_eq_getElem, List.getElem_append_left hlast]
      rw [this]
      exact List.getElem_mem _
    · have hieq : i + 1 = cyc.length := by omega
      have : (cyc ++ cyc.take 1).get ⟨i + 1, by omega⟩ =
          (cyc.take 1).get ⟨0, by
            simp [List.length_take]
            omega⟩ := by
        simp [List.get_eq_getElem]
        rw [List.getElem_append_right (by omega)]
        simp [hieq]
      rw [this]
      exact List.mem_of_mem_take (List.getElem_mem _)
  · have hgl : (cyc ++ cyc.take 1).get ⟨i, by omega⟩ = a := by
      simp [List.get_eq_getElem, List.getElem_append_left hi, hgi]
    rw [hgl] at hadj
    exact hadj

end Doenet

namespace Doenet

/-- Classification of one copy-source chain walk under a well-formed table:
with enough fuel, every walk either ends at a component without a
whole-component copy source, or reports a copy cycle as the cycle (from its
first revisited component) followed by that component again. -/
theorem c5_walk_classify (components : List (ComponentName × ComponentNode))
    (hwf : NodesWellFormed components) :
    ∀ (fuel : Nat) (node : ComponentNode) (chain : List ComponentName),
      lookupD components node.name = some node →
      chain.Nodup →
      (∀ x ∈ chain, x ∈ components.map Prod.fst) →
      List.Chain' (fun a b => copyLinksTo components a b = true)
        (chain ++ [node.name]) →
      components.length + 1 ≤ fuel + chain.length →
      (∃ cyc, IsCopyCycle components cyc ∧
        check_cyclic_copy_walk components fuel node chain =
          .found (.CyclicalDependency (cyc ++ cyc.take 1))) ∨
      check_cyclic_copy_walk components fuel node chain = .ended := by
  intro fuel
  induction fuel with
  | zero =>
      intro node chain _ hnd hsub _ hfuel
      exfalso
      have hsp := List.subperm_of_subset hnd hsub
      have := hsp.length_le
      simp only [List.length_map] at this
      omega
  | succ f ih =>
      intro node chain hlook hnd hsub hch hfuel
      cases hcs : node.copy_source with
      | none => right; simp [check_cyclic_copy_walk, hcs]
      | some cs =>
          cases cs with
          | StateVar rr => right; simp [check_cyclic_copy_walk, hcs]
          | DynamicElement a b e v =>
              right; simp [check_cyclic_copy_walk, hcs]
          | MapSources s => right; simp [check_cyclic_copy_walk, hcs]
          | Component crr =>
              by_cases hmem : node.name ∈ chain
              · left
                have hp : chain.indexOf node.name < chain.length :=
                  List.indexOf_lt_length.mpr hmem
                have hidx : (chain ++ [node.name]).indexOf node.name =
                    chain.indexOf node.name :=
                  List.indexOf_append_of_mem hmem
                have hdrop : (chain ++ [node.name]).drop
                    (chain.indexOf node.name) =
                    chain.drop (chain.indexOf node.name) ++ [node.name] :=
                  List.drop_append_of_le_length (le_of_lt hp)
                have hcons : chain.drop (chain.indexOf node.name) =
                    node.name :: chain.drop (chain.indexOf node.name + 1) := by
                  rw [List.drop_eq_getElem_cons hp]
                  rw [List.getElem_indexOf hp]
                have htake : (chain.drop (chain.indexOf node.name)).take 1 =
                    [node.name] := by
                  rw [hcons]
                  rfl
                refine ⟨chain.drop (chain.indexOf node.name),
                  ⟨?_, ?_, ?_⟩, ?_⟩
                · rw [hcons]; simp
                · exact hnd.sublist (List.drop_sublist _ _)
                · rw [htake, ← hdrop]
                  exact hch.suffix (List.drop_suffix _ _)
                · rw [htake]
                  simp only [check_cyclic_copy_walk, hcs, hmem, if_true]
                  rw [hidx, hdrop]
              · have hpmem : (node.name, node) ∈ components :=
                  mem_of_lookupD components node.name node hlook
                have hok := (hwf.2 (node.name, node) hpmem).2
                rw [node_copy_target_ok, hcs] at hok
                have hok2 : (lookupD components crr.ref.name).isSome = true :=
                  hok
                obtain ⟨next, hlooknext⟩ := Option.isSome_iff_exists.mp hok2
                have hnextmem : (crr.ref.name, next) ∈ components :=
                  mem_of_lookupD components crr.ref.name next hlooknext
                have hnextname : next.name = crr.ref.name :=
                  (hwf.2 (crr.ref.name, next) hnextmem).1
                have hlooknext2 : lookupD components next.name = some next :=
                  by rw [hnextname]; exact hlooknext
                have hlink : copyLinksTo components node.name next.name =
                    true := by
                  simp [copyLinksTo, hlook, hcs, hnextname]
                have hnd2 : (chain ++ [node.name]).Nodup := by
                  simp [List.nodup_append, hnd, hmem]
                have hsub2 : ∀ x ∈ chain ++ [node.name],
                    x ∈ components.map Prod.fst := by
                  intro x hx
                  rcases List.mem_append.mp hx with hx | hx
                  · exact hsub x hx
                  · simp only [List.mem_singleton] at hx
                    subst hx
                    exact lookupD_mem components node.name node hlook
                have hch2 : List.Chain'
                    (fun a b => copyLinksTo components a b = true)
                    ((chain ++ [node.name]) ++ [next.name]) := by
                  rw [List.chain'_append]
                  refine ⟨hch, List.chain'_singleton _, ?_⟩
                  intro x hx y hy
                  simp only [List.getLast?_concat, Option.mem_def,
                    Option.some.injEq] at hx
                  simp only [List.head?_cons, Option.mem_def,
                    Option.some.injEq] at hy
                  subst hx
                  subst hy
                  exact hlink
                have hfuel2 : components.length + 1 ≤
                    f + (chain ++ [node.name]).length := by
                  simp only [List.length_append, List.length_cons,
                    List.length_nil]
                  omega
                have hstep : check_cyclic_copy_walk components (f + 1) node
                    chain = check_cyclic_copy_walk components f next
                    (chain ++ [node.name]) := by
                  simp only [check_cyclic_copy_walk, hcs, hmem, if_false,
                    hlooknext]
                rw [hstep]
                exact ih next (chain ++ [node.name]) hlooknext2 hnd2 hsub2
                  hch2 hfuel2

end Doenet

namespace Doenet

/-- A walk started on a copy cycle never reaches a component without a
whole-component copy source. -/
theorem c5_walk_not_ended (components : List (ComponentName × ComponentNode))
    (hwf : NodesWellFormed components) (cyc : List ComponentName)
    (hcyc : IsCopyCycle components cyc) :
    ∀ (fuel : Nat) (node : ComponentNode) (chain : List ComponentName),
      node.name ∈ cyc → lookupD components node.name = some node →
      check_cyclic_copy_walk components fuel node chain ≠ .ended := by
  intro fuel
  induction fuel with
  | zero => intro node chain _ _; simp [check_cyclic_copy_walk]
  | succ f ih =>
      intro node chain hmemcyc hlook
      obtain ⟨b, hbcyc, hblink⟩ := c5_cycle_succ components cyc hcyc
        node.name hmemcyc
      cases hcs : node.copy_source with
      | none => simp [copyLinksTo, hlook, hcs] at hblink
      | some cs =>
          cases cs with
          | StateVar rr => simp [copyLinksTo, hlook, hcs] at hblink
          | DynamicElement a2 b2 e2 v2 =>
              simp [copyLinksTo, hlook, hcs] at hblink
          | MapSources s2 => simp [copyLinksTo, hlook, hcs] at hblink
          | Component crr =>
              have hrefb : crr.ref.name = b := by
                simpa [copyLinksTo, hlook, hcs] using hblink
              by_cases hmem : node.name ∈ chain
              · simp [check_cyclic_copy_walk, hcs, hmem]
              · obtain ⟨b2, hb2cyc, hb2link⟩ := c5_cycle_succ components cyc
                  hcyc b hbcyc
                have hlbx : ∃ nodeb, lookupD components b = some nodeb := by
                  cases hlb : lookupD components b with
                  | none => simp [copyLinksTo, hlb] at hb2link
                  | some nodeb => exact ⟨nodeb, rfl⟩
                obtain ⟨nodeb, hlb⟩ := hlbx
                have hnbname : nodeb.name = b :=
                  (hwf.2 (b, nodeb) (mem_of_lookupD _ _ _ hlb)).1
                have hlbname : lookupD components nodeb.name = some nodeb :=
                  by rw [hnbname]; exact hlb
                have hstep : check_cyclic_copy_walk components (f + 1) node
                    chain = check_cyclic_copy_walk components f nodeb
                    (chain ++ [node.name]) := by
                  simp only [check_cyclic_copy_walk, hcs, hmem, if_false]
                  rw [hrefb, hlb]
                rw [hstep]
                exact ih nodeb (chain ++ [node.name])
                  (by rw [hnbname]; exact hbcyc) hlbname

/-- Walking the list of copy-source components: if every walk either reports
a good cycle or ends cleanly, and some walk does not end cleanly, the
traversal reports a good cycle. -/
theorem c5_aux_found (components : List (ComponentName × ComponentNode))
    (targets : List ComponentNode)
    (hall : ∀ t ∈ targets,
      (∃ cyc, IsCopyCycle components cyc ∧
        check_cyclic_copy_source_component components t =
          .ok (some (.CyclicalDependency (cyc ++ cyc.take 1)))) ∨
      check_cyclic_copy_source_component components t = .ok none)
    (hex : ∃ t ∈ targets,
      check_cyclic_copy_source_component components t ≠ .ok none) :
    ∃ cyc, IsCopyCycle components cyc ∧
      check_for_cyclical_copy_sources_aux components targets =
        .ok (some (.CyclicalDependency (cyc ++ cyc.take 1))) := by
  induction targets with
  | nil => obtain ⟨t, ht, _⟩ := hex; simp at ht
  | cons t rest ih =>
      rcases hall t (by simp) with ⟨cyc, hc, heq⟩ | heq
      · exact ⟨cyc, hc, by
          simp [check_for_cyclical_copy_sources_aux, heq, bind,
            Except.bind]⟩
      · have hex2 : ∃ t2 ∈ rest,
            check_cyclic_copy_source_component components t2 ≠ .ok none := by
          obtain ⟨t2, ht2, hne⟩ := hex
          rcases List.mem_cons.mp ht2 with heq2 | ht2r
          · subst heq2; exact absurd heq hne
          · exact ⟨t2, ht2r, hne⟩
        obtain ⟨cyc, hc, haux⟩ := ih
          (fun t2 ht2 => hall t2 (List.mem_cons_of_mem _ ht2)) hex2
        exact ⟨cyc, hc, by
          simp [check_for_cyclical_copy_sources_aux, heq, bind, Except.bind,
            haux]⟩

/-- C5: in any well-formed component table containing a copy cycle, core
construction fails: it returns the cyclical-dependency error (no core), and
the reported component chain is exactly a copy cycle, in cycle order, closed
by repeating the cycle's first component. -/
theorem C5_copy_cycle_fails_construction
    (components : List (ComponentName × ComponentNode))
    (attrs : List (ComponentName × CompAttrs)) (root : ComponentName)
    (snap : Option EssentialData)
    (hwf : NodesWellFormed components)
    (hcyc : ∃ cyc, IsCopyCycle components cyc) :
    ∃ cyc, IsCopyCycle components cyc ∧
      create_doenet_core components attrs root snap =
        .ok (.error (.CyclicalDependency (cyc ++ cyc.take 1))) := by
  have hall : ∀ t ∈ components.filterMap (fun cn =>
      match cn.2.copy_source with
      | some (.Component _) => some cn.2
      | _ => none),
      (∃ cyc, IsCopyCycle components cyc ∧
        check_cyclic_copy_source_component components t =
          .ok (some (.CyclicalDependency (cyc ++ cyc.take 1)))) ∨
      check_cyclic_copy_source_component components t = .ok none := by
    intro t ht
    obtain ⟨cn, hcn, hmatch⟩ := List.mem_filterMap.mp ht
    have ht2 : t = cn.2 := by
      cases hcs2 : cn.2.copy_source with
      | none => rw [hcs2] at hmatch; simp at hmatch
      | some cs =>
          cases cs with
          | Component crr =>
              rw [hcs2] at hmatch
              exact (Option.some.inj hmatch).symm
          | StateVar rr => rw [hcs2] at hmatch; simp at hmatch
          | DynamicElement a2 b2 e2 v2 => rw [hcs2] at hmatch; simp at hmatch
          | MapSources s2 => rw [hcs2] at hmatch; simp at hmatch
    have hname : cn.2.name = cn.1 := (hwf.2 cn hcn).1
    have hlook : lookupD components t.name = some t := by
      rw [ht2, hname]
      exact lookupD_of_mem_nodup components cn.1 cn.2 hwf.1 hcn
    have hclass := c5_walk_classify components hwf
      (components.length + 1) t [] hlook (by simp) (by simp)
      (by simp) (by simp)
    rcases hclass with ⟨cyc, hc, heq⟩ | heq
    · exact Or.inl ⟨cyc, hc, by
        simp [check_cyclic_copy_source_component, heq]⟩
    · exact Or.inr (by simp [check_cyclic_copy_source_component, heq])
  have hex : ∃ t ∈ components.filterMap (fun cn =>
      match cn.2.copy_source with
      | some (.Component _) => some cn.2
      | _ => none),
      check_cyclic_copy_source_component components t ≠ .ok none := by
    obtain ⟨cyc, hc⟩ := hcyc
    obtain ⟨h0, hh0⟩ : ∃ h0, h0 ∈ cyc := by
      cases hcl : cyc with
      | nil => exact absurd hcl hc.1
      | cons h0 rest => exact ⟨h0, by simp⟩
    obtain ⟨b, hb, hlink⟩ := c5_cycle_succ components cyc hc h0 hh0
    have hl0x : ∃ node0, lookupD components h0 = some node0 := by
      cases hl : lookupD components h0 with
      | none => simp [copyLinksTo, hl] at hlink
      | some n => exact ⟨n, rfl⟩
    obtain ⟨node0, hl0⟩ := hl0x
    have hcs0x : ∃ crr, node0.copy_source = some (.Component crr) := by
      cases hcs : node0.copy_source with
      | none => simp [copyLinksTo, hl0, hcs] at hlink
      | some cs =>
          cases cs with
          | Component crr => exact ⟨crr, rfl⟩
          | StateVar rr => simp [copyLinksTo, hl0, hcs] at hlink
          | DynamicElement a2 b2 e2 v2 =>
              simp [copyLinksTo, hl0, hcs] at hlink
          | MapSources s2 => simp [copyLinksTo, hl0, hcs] at hlink
    obtain ⟨crr, hcs0⟩ := hcs0x
    have hmem0 : (h0, node0) ∈ components := mem_of_lookupD _ _ _ hl0
    have hname0 : node0.name = h0 := (hwf.2 _ hmem0).1
    refine ⟨node0, List.mem_filterMap.mpr ⟨(h0, node0), hmem0, by
      simp [hcs0]⟩, ?_⟩
    have hnend := c5_walk_not_ended components hwf cyc hc
      (components.length + 1) node0 [] (by rw [hname0]; exact hh0)
      (by rw [hname0]; exact hl0)
    intro hcontra
    unfold check_cyclic_copy_source_component at hcontra
    cases hwalk : check_cyclic_copy_walk components (components.length + 1)
        node0 [] with
    | found e => rw [hwalk] at hcontra; simp at hcontra
    | ended => exact hnend hwalk
    | missing => rw [hwalk] at hcontra; simp at hcontra
    | fuelOut => rw [hwalk] at hcontra; simp at hcontra
  obtain ⟨cyc, hc, haux⟩ := c5_aux_found components _ hall hex
  refine ⟨cyc, hc, ?_⟩
  have hcheck : check_for_cyclical_copy_sources components =
      .ok (some (.CyclicalDependency (cyc ++ cyc.take 1))) := by
    rw [check_for_cyclical_copy_sources]
    exact haux
  simp [create_doenet_core, hcheck, bind, Except.bind]

/-- Closed instance: two components copying each other make construction
fail with the cycle, closed by its first component, as the reported chain. -/
theorem C5_copy_cycle_fails_construction_witness :
    ∃ cyc, IsCopyCycle components5 cyc ∧
      create_doenet_core components5 [] "X" none =
        .ok (.error (.CyclicalDependency (cyc ++ cyc.take 1))) :=
  C5_copy_cycle_fails_construction components5 [] "X" none
    ⟨by decide, by decide⟩
    ⟨["X", "Y"], by decide, by decide, by
      simp only [List.take, List.cons_append, List.nil_append,
        List.chain'_cons, List.chain'_singleton, and_true]
      exact ⟨by decide, by decide⟩⟩

end Doenet
